import Mathlib

/-
  Verification of `functions/notify_teams.py`: an AWS Lambda entry point that
  classifies an inbound SNS notification (CloudWatch alarm, CloudTrail audit
  event, Cost Anomaly record, or generic message), renders it into an Adaptive
  Card document tree, and delivers it to a Teams webhook.

  The embedding models Python JSON values as the inductive `Json`, Python
  exceptions as `Except PyErr`, the `json.loads` library call as an explicit
  function parameter `loads` (a pure function, as `json.loads` is), the
  `datetime.now().isoformat()` call as a string parameter `now`, and the
  outcome of the single outbound HTTP POST as a `SendOutcome` parameter.
-/

namespace NotifyTeams

/-- A parsed JSON value, as produced by `json.loads`.  Numbers are modelled as
exact rationals (`Rat`), covering both Python ints and floats.  Objects keep
insertion order, as Python dicts do. -/
inductive Json where
  | null
  | bool (b : Bool)
  | num (q : Rat)
  | str (s : String)
  | arr (xs : List Json)
  | obj (kvs : List (String × Json))

/-- A Python exception, tagged by class.  `is_cloudwatch_alarm` catches only
`ValueError` (the superclass of `json.JSONDecodeError`); every other class is
caught only by the entry point.  The carried string is `str(e)`; its exact
wording approximates CPython messages where the code never inspects it. -/
inductive PyErr where
  | valueError (m : String)
  | keyError (k : String)
  | indexError (m : String)
  | typeError (m : String)
  | attributeError (m : String)

/-- An ASCII single quote, used by Python `repr`. -/
def squote : String := String.mk [Char.ofNat 39]

/-- `str(e)` for a Python exception; `str(KeyError(k))` is `repr(k)`. -/
def PyErr.str : PyErr → String
  | .valueError m => m
  | .keyError k => squote ++ k ++ squote
  | .indexError m => m
  | .typeError m => m
  | .attributeError m => m

/-- First value stored under a key in an association list (Python dict lookup
order is irrelevant because keys are unique in parsed JSON, but first-match
agrees with dict semantics in any case). -/
def jlookup : List (String × Json) → String → Option Json
  | [], _ => none
  | (k, v) :: kvs, key => if k = key then some v else jlookup kvs key

/-- `dict.get(key, default)`s result on the association list of an object. -/
def jfindD (kvs : List (String × Json)) (key : String) (d : Json) : Json :=
  match jlookup kvs key with
  | some v => v
  | none => d

/-- Is this value the JSON/Python `null`/`None`? -/
def Json.isNull : Json → Bool
  | .null => true
  | _ => false

/-- Python truthiness of a JSON value: `None`, `False`, `0`, `""`, `[]` and
an empty dict are falsy, everything else truthy. -/
def truthy : Json → Bool
  | .null => false
  | .bool b => b
  | .num q => !(q == 0)
  | .str s => !(s == "")
  | .arr xs => !xs.isEmpty
  | .obj kvs => !kvs.isEmpty

/-- `xs.isPrefixOf ys` for char lists, structurally. -/
def chPrefix : List Char → List Char → Bool
  | [], _ => true
  | _ :: _, [] => false
  | p :: ps, c :: cs => (p = c) && chPrefix ps cs

/-- Is `pat` a contiguous infix of `s`? -/
def chInfix : List Char → List Char → Bool
  | s, pat =>
    match s with
    | [] => chPrefix pat []
    | c :: cs => chPrefix pat (c :: cs) || chInfix cs pat

/-- Python `pat in s` for strings: substring containment. -/
def strContainsSub (s pat : String) : Bool := chInfix s.data pat.data

/-- ASCII lower-casing of one character (model of `str.lower` restricted to
the ASCII range, which covers every state value the code compares). -/
def charLower (c : Char) : Char :=
  if 65 ≤ c.toNat && c.toNat ≤ 90 then Char.ofNat (c.toNat + 32) else c

/-- Model of Python `str.lower`. -/
def strLower (s : String) : String := String.mk (s.data.map charLower)

/-- Digit characters of `n`, left-padded with zeros to exactly `d` digits
(the fractional part of a fixed-point rendering). -/
def padDigits : Nat → Nat → List Char
  | 0, _ => []
  | d+1, n => padDigits d (n / 10) ++ [Nat.digitChar (n % 10)]

/-- Model of Python `f"{x:.df}"` fixed-point formatting on an exact rational:
round half to even at the `d`-th decimal, then print sign, integer part, a
dot, and exactly `d` fractional digits. -/
def formatFixed (q : Rat) (d : Nat) : String :=
  let num10 : Int := q.num * (10 : Int) ^ d
  let den : Int := (q.den : Int)
  let f : Int := num10.fdiv den
  let rem : Int := num10 - f * den
  let n : Int := if 2 * rem < den then f
                 else if den < 2 * rem then f + 1
                 else if f % 2 = 0 then f else f + 1
  let sign := if n < 0 || (n == 0 && q.num < 0) then "-" else ""
  let a := n.natAbs
  sign ++ Nat.repr (a / 10 ^ d) ++ "." ++ String.mk (padDigits d (a % 10 ^ d))

mutual
/-- Python `repr` of a parsed JSON value (used for values nested inside
containers interpolated into f-strings). -/
def pyRepr : Json → String
  | .null => "None"
  | .bool b => if b then "True" else "False"
  | .num q => if q.den = 1 then Int.repr q.num
              else Int.repr q.num ++ "/" ++ Nat.repr q.den
  | .str s => squote ++ s ++ squote
  | .arr xs => "[" ++ pyReprList xs ++ "]"
  | .obj kvs => "\x7b" ++ pyReprKVs kvs ++ "\x7d"

def pyReprList : List Json → String
  | [] => ""
  | [x] => pyRepr x
  | x :: y :: xs => pyRepr x ++ ", " ++ pyReprList (y :: xs)

def pyReprKVs : List (String × Json) → String
  | [] => ""
  | [(k, v)] => squote ++ k ++ squote ++ ": " ++ pyRepr v
  | (k, v) :: p :: kvs =>
      squote ++ k ++ squote ++ ": " ++ pyRepr v ++ ", " ++ pyReprKVs (p :: kvs)
end

/-- Python `str` of a parsed JSON value, as an f-string renders it.  Integral
numbers print exactly; non-integral rationals are a stand-in rendering (the
code never formats such a value except through `formatFixed`). -/
def pyStr (j : Json) : String :=
  match j with
  | .str s => s
  | _ => pyRepr j

/-- Python subscript `j[key]` with a string key: dict lookup with `KeyError`,
`TypeError` for every other value class. -/
def jsub (j : Json) (key : String) : Except PyErr Json :=
  match j with
  | .obj kvs =>
    match jlookup kvs key with
    | some v => .ok v
    | none => .error (.keyError key)
  | .arr _ => .error (.typeError "list indices must be integers or slices, not str")
  | .str _ => .error (.typeError "string indices must be integers")
  | _ => .error (.typeError "object is not subscriptable")

/-- Python subscript `j[i]` with a non-negative integer index. -/
def jidx (j : Json) (i : Nat) : Except PyErr Json :=
  match j with
  | .arr xs =>
    match xs.get? i with
    | some v => .ok v
    | none => .error (.indexError "list index out of range")
  | .str s =>
    match s.data.get? i with
    | some c => .ok (.str (String.mk [c]))
    | none => .error (.indexError "string index out of range")
  | .obj _ => .error (.keyError (Nat.repr i))
  | _ => .error (.typeError "object is not subscriptable")

/-- Python `j.get(key, default)`: defined on dicts, `AttributeError`
otherwise. -/
def jget (j : Json) (key : String) (d : Json) : Except PyErr Json :=
  match j with
  | .obj kvs => .ok (jfindD kvs key d)
  | _ => .error (.attributeError ("object has no attribute " ++ squote ++ "get" ++ squote))

/-- Python `key in j` (the classifier applies it to the parsed payload):
key containment on dicts, substring test on strings, membership on lists,
`TypeError` on non-iterables. -/
def pyIn (key : String) (j : Json) : Except PyErr Bool :=
  match j with
  | .obj kvs => .ok (jlookup kvs key).isSome
  | .str s => .ok (strContainsSub s key)
  | .arr xs => .ok (xs.any (fun x => match x with | .str s => s = key | _ => false))
  | _ => .error (.typeError "argument is not iterable")

/-- Python `j.lower()`: defined on strings only. -/
def pyLower (j : Json) : Except PyErr String :=
  match j with
  | .str s => .ok (strLower s)
  | _ => .error (.attributeError ("object has no attribute " ++ squote ++ "lower" ++ squote))

/-- Python slice `j[:n]`: prefix of a string or list, `TypeError` otherwise. -/
def jslice (n : Nat) (j : Json) : Except PyErr Json :=
  match j with
  | .str s => .ok (.str (String.mk (s.data.take n)))
  | .arr xs => .ok (.arr (xs.take n))
  | _ => .error (.typeError "object is not subscriptable")

/-- Python `len(j)`: strings, lists and dicts have a length. -/
def pyLen (j : Json) : Except PyErr Nat :=
  match j with
  | .str s => .ok s.data.length
  | .arr xs => .ok xs.length
  | .obj kvs => .ok kvs.length
  | _ => .error (.typeError "object has no len")

/-- Python `j + suffix` with a string suffix (the `service[:32] + "..."`
truncation): string concatenation, `TypeError` for any other class. -/
def pyAddStr (j : Json) (suffix : String) : Except PyErr Json :=
  match j with
  | .str s => .ok (.str (s ++ suffix))
  | _ => .error (.typeError "can only concatenate str to str")

/-- Python iteration `for x in j`: elements of a list, characters of a
string, keys of a dict. -/
def jelements (j : Json) : Except PyErr (List Json) :=
  match j with
  | .arr xs => .ok xs
  | .str s => .ok (s.data.map (fun c => Json.str (String.mk [c])))
  | .obj kvs => .ok (kvs.map (fun p => Json.str p.1))
  | _ => .error (.typeError "object is not iterable")

/-- Python `f"{j:.df}"`: fixed-point formatting of a number (bools are ints
in Python); any other class raises. -/
def pyFormatFixed (j : Json) (d : Nat) : Except PyErr String :=
  match j with
  | .num q => .ok (formatFixed q d)
  | .bool b => .ok (formatFixed (if b then 1 else 0) d)
  | .str _ => .error (.valueError "Unknown format code f for object of type str")
  | _ => .error (.typeError "unsupported format string passed to object")

/-- Structural effectful map in the `Except` monad: the body of the
`for cause in root_causes` loop applied in order, stopping at the first
raised exception, collecting the constructed rows. -/
def exceptMap {α β : Type} (f : α → Except PyErr β) : List α → Except PyErr (List β)
  | [] => .ok []
  | x :: xs => do
    let b ← f x
    let bs ← exceptMap f xs
    pure (b :: bs)

/-! ## The card document model

One Lean declaration per Python class.  Attributes whose default is `None`
become `Option`; attributes defaulted with `x or []` become plain lists.
A Python attribute holding a raw payload value is `Json`-typed; an attribute
the code only ever fills with string literals or f-strings is `String`-typed.
An attribute set to the payload value `None` is indistinguishable in Python
from one left unset (both fail `is not None`), so constructors store such a
value as `some Json.null` and serialization treats it as unset. -/

/-- `class Fact`: one title/value pair of a fact set. -/
structure Fact where
  title : String
  value : Json

/-- `class FactSet`: identical twin of `Fact` in the source (the type the
`BodyBlock.facts` annotation names). -/
structure FactSet where
  title : String
  value : Json

/-- `class FactSetBlock`. -/
structure FactSetBlock where
  facts : List Fact
  spacing : Option String
  separator : Option Bool

/-- `class Action`. -/
structure Action where
  type_ : String
  title : String
  url : Option Json
  style : Option String

/-- `class TableColumn`. -/
structure TableColumn where
  width : Option String

mutual
/-- `class BodyBlock`: the one body-node class; constructor arguments in the
order of the Python `__init__` signature. -/
inductive BodyBlock where
  | mk (type_ : Option String) (text : Option Json)
       (weight : Option String) (size : Option String) (color : Option String)
       (facts : List FactSet) (columns : List ColumnSet) (items : List BodyBlock)
       (style : Option String) (spacing : Option String) (separator : Option Bool)
       (horizontal_alignment : Option String) (vertical_content_alignment : Option String)
       (wrap : Option Bool) (fact_set_block : Option FactSetBlock) (table : Option Table)

/-- `class ColumnSet` (a single column; the enclosing column set is a
`BodyBlock` of type `ColumnSet`, mirroring the source). -/
inductive ColumnSet where
  | mk (type_ : String) (width : Option String) (items : List BodyBlock)

/-- `class Table`. -/
inductive Table where
  | mk (columns : List TableColumn) (rows : List TableRow)
       (first_row_as_header : Bool) (show_grid_lines : Bool) (spacing : Option String)

/-- `class TableRow`. -/
inductive TableRow where
  | mk (cells : List TableCell)

/-- `class TableCell`. -/
inductive TableCell where
  | mk (items : List BodyBlock)
end

/-- `class Content`: the Adaptive Card root. -/
structure Content where
  schema : String
  type_ : String
  version : String
  body : List BodyBlock
  actions : List Action

/-- `class Attachment`.  `content_url` defaults to `None` and is always
serialized verbatim, hence a raw `Json` (normally `null`). -/
structure Attachment where
  content_type : String
  content_url : Json
  content : Option Content

/-- `class TeamsMessage`: the outbound envelope. -/
structure TeamsMessage where
  type_ : String
  attachments : List Attachment

/-! Keyword-argument helpers: each mirrors one recurring keyword pattern of
the `BodyBlock(...)` call sites, filling every omitted argument with its
Python default. -/

/-- `BodyBlock(type_="TextBlock", text=..., weight=..., size=..., color=...,
wrap=..., spacing=..., horizontal_alignment=...)`. -/
def textBlock (text : Json) (weight size color : Option String) (wrap : Option Bool)
    (spacing horizontal_alignment : Option String) : BodyBlock :=
  BodyBlock.mk (some "TextBlock") (some text) weight size color [] [] [] none spacing
    none horizontal_alignment none wrap none none

/-- `BodyBlock(type_="Container", style=..., items=..., spacing=...)`. -/
def containerBlock (style : String) (spacing : Option String) (items : List BodyBlock) :
    BodyBlock :=
  BodyBlock.mk (some "Container") none none none none [] [] items (some style) spacing
    none none none none none none

/-- `BodyBlock(type_="ColumnSet", spacing=..., columns=...)`. -/
def columnSetBlock (spacing : Option String) (columns : List ColumnSet) : BodyBlock :=
  BodyBlock.mk (some "ColumnSet") none none none none [] columns [] none spacing
    none none none none none none

/-- `ColumnSet(width=..., items=...)`. -/
def columnOf (width : String) (items : List BodyBlock) : ColumnSet :=
  ColumnSet.mk "Column" (some width) items

/-- `BodyBlock(fact_set_block=...)`. -/
def factSetOf (b : FactSetBlock) : BodyBlock :=
  BodyBlock.mk none none none none none [] [] [] none none none none none none (some b) none

/-- `BodyBlock(table=...)`. -/
def tableOf (t : Table) : BodyBlock :=
  BodyBlock.mk none none none none none [] [] [] none none none none none none none (some t)

/-! ## Serialization (`to_dict` methods)

Each method builds the key list in the source's insertion order.  A key
guarded by `if x is not None:` is emitted when the option carries a non-null
value; a key guarded by `if x:` is emitted when the value is truthy
(non-empty string / non-empty list / present object). -/

/-- Emit an optional raw value under Python `is not None` (where `none`
models both an unset attribute and an attribute set to `None`). -/
def emitJ (key : String) : Option Json → List (String × Json)
  | some v => if v.isNull then [] else [(key, v)]
  | none => []

/-- Emit an optional string attribute under Python `is not None`. -/
def emitS (key : String) : Option String → List (String × Json)
  | some s => [(key, .str s)]
  | none => []

/-- Emit an optional string attribute under Python truthiness (`if x:`). -/
def emitST (key : String) : Option String → List (String × Json)
  | some s => if s = "" then [] else [(key, .str s)]
  | none => []

/-- Emit an optional bool attribute under Python `is not None`. -/
def emitB (key : String) : Option Bool → List (String × Json)
  | some b => [(key, .bool b)]
  | none => []

/-- Emit the `type` key of a bare `BodyBlock`: the source writes
`{"type": self.type}` unconditionally, so an unset type serializes as
`null`. -/
def emitType : Option String → List (String × Json)
  | some s => [("type", .str s)]
  | none => [("type", .null)]

/-- `Fact.to_dict`. -/
def Fact.to_dict (f : Fact) : Json :=
  .obj [("title", .str f.title), ("value", f.value)]

/-- `FactSet.to_dict`. -/
def FactSet.to_dict (f : FactSet) : Json :=
  .obj [("title", .str f.title), ("value", f.value)]

/-- `FactSetBlock.to_dict`. -/
def FactSetBlock.to_dict (b : FactSetBlock) : Json :=
  .obj ([("type", .str "FactSet"), ("facts", .arr (b.facts.map Fact.to_dict))]
    ++ emitST "spacing" b.spacing ++ emitB "separator" b.separator)

/-- `Action.to_dict`; `url` is emitted under truthiness of the raw value. -/
def Action.to_dict (a : Action) : Json :=
  .obj ([("type", .str a.type_), ("title", .str a.title)]
    ++ (match a.url with
        | some v => if truthy v then [("url", v)] else []
        | none => [])
    ++ emitST "style" a.style)

/-- `TableColumn.to_dict`. -/
def TableColumn.to_dict (c : TableColumn) : Json :=
  .obj ([("type", .str "TableColumnDefinition")] ++ emitST "width" c.width)

mutual
/-- `BodyBlock.to_dict`: delegates to the fact-set or table payload when one
is present, else emits `type` plus every set attribute. -/
def BodyBlock.to_dict : BodyBlock → Json
  | .mk type_ text weight size color facts columns items style spacing separator
      ha vca wrap fact_set_block table =>
    match fact_set_block with
    | some b => b.to_dict
    | none =>
      match table with
      | some t => tableToDict t
      | none =>
        .obj (emitType type_ ++ emitJ "text" text ++ emitS "weight" weight
          ++ emitS "size" size ++ emitS "color" color
          ++ (if facts.isEmpty then [] else [("facts", .arr (facts.map FactSet.to_dict))])
          ++ (if columns.isEmpty then [] else [("columns", .arr (columnsToDict columns))])
          ++ (if items.isEmpty then [] else [("items", .arr (blocksToDict items))])
          ++ emitS "style" style ++ emitS "spacing" spacing ++ emitB "separator" separator
          ++ emitS "horizontalAlignment" ha ++ emitS "verticalContentAlignment" vca
          ++ emitB "wrap" wrap)

def blocksToDict : List BodyBlock → List Json
  | [] => []
  | b :: bs => b.to_dict :: blocksToDict bs

/-- `ColumnSet.to_dict`. -/
def columnToDict : ColumnSet → Json
  | .mk type_ width items =>
    .obj ([("type", .str type_), ("items", .arr (blocksToDict items))]
      ++ emitST "width" width)

def columnsToDict : List ColumnSet → List Json
  | [] => []
  | c :: cs => columnToDict c :: columnsToDict cs

/-- `Table.to_dict`: always emits `firstRowAsHeader` and `showGridLines`,
even when false. -/
def tableToDict : Table → Json
  | .mk columns rows first_row_as_header show_grid_lines spacing =>
    .obj ([("type", .str "Table"),
           ("columns", .arr (columns.map TableColumn.to_dict)),
           ("rows", .arr (rowsToDict rows)),
           ("firstRowAsHeader", .bool first_row_as_header),
           ("showGridLines", .bool show_grid_lines)]
      ++ emitST "spacing" spacing)

/-- `TableRow.to_dict`. -/
def rowToDict : TableRow → Json
  | .mk cells => .obj [("type", .str "TableRow"), ("cells", .arr (cellsToDict cells))]

def rowsToDict : List TableRow → List Json
  | [] => []
  | r :: rs => rowToDict r :: rowsToDict rs

/-- `TableCell.to_dict`. -/
def cellToDict : TableCell → Json
  | .mk items => .obj [("type", .str "TableCell"), ("items", .arr (blocksToDict items))]

def cellsToDict : List TableCell → List Json
  | [] => []
  | c :: cs => cellToDict c :: cellsToDict cs
end

/-- `Content.to_dict`: `actions` is emitted only when non-empty. -/
def Content.to_dict (c : Content) : Json :=
  .obj ([("$schema", .str c.schema), ("type", .str c.type_), ("version", .str c.version),
         ("body", .arr (blocksToDict c.body))]
    ++ (if c.actions.isEmpty then [] else [("actions", .arr (c.actions.map Action.to_dict))]))

/-- `Attachment.to_dict`: `contentUrl` is always emitted verbatim (normally
`null`); a missing content serializes as the empty object. -/
def Attachment.to_dict (a : Attachment) : Json :=
  .obj [("contentType", .str a.content_type), ("contentUrl", a.content_url),
        ("content", match a.content with | some c => c.to_dict | none => .obj [])]

/-- `TeamsMessage.to_dict`. -/
def TeamsMessage.to_dict (m : TeamsMessage) : Json :=
  .obj [("type", .str m.type_), ("attachments", .arr (m.attachments.map Attachment.to_dict))]

/-- The default `$schema` argument of `Content.__init__`. -/
def defaultSchema : String := "http://adaptivecards.io/schemas/adaptive-card.json"

/-- `Attachment(content=content)` followed by
`TeamsMessage(attachments=[attachment])`: the common epilogue of every
renderer, with every other argument at its Python default. -/
def teamsWrap (content : Content) : TeamsMessage :=
  TeamsMessage.mk "message"
    [Attachment.mk "application/vnd.microsoft.card.adaptive" Json.null (some content)]

/-! ## Emoji constants (UTF-8 literals of the source module). -/

def EMOJI_CLOUDTRAIL : String := "☁️"
def EMOJI_WARNING : String := "⚠️"
def EMOJI_ERROR : String := "❌"
def EMOJI_SUCCESS : String := "✅"
def EMOJI_INFO : String := "ℹ️"
def EMOJI_TIME : String := "🕒"
def EMOJI_TARGET : String := "🎯"

/-- `get_action_color`: maps an action verb (case-insensitively) to a
presentation color.  Present in the source but not wired into any renderer. -/
def get_action_color (action : String) : String :=
  let action_lower := strLower action
  if action_lower = "deleted" ∨ action_lower = "d" ∨ action_lower = "delete"
      ∨ action_lower = "removed" then "attention"
  else if action_lower = "created" ∨ action_lower = "create" ∨ action_lower = "added" then "good"
  else if action_lower = "updated" ∨ action_lower = "update" ∨ action_lower = "modified" then "default"
  else if action_lower = "deployed" ∨ action_lower = "deploy" then "good"
  else if action_lower = "restored" ∨ action_lower = "restore" then "good"
  else "default"

/-! ## Renderers

Each renderer is the translation of one `create_*_message` function.  Field
extraction (`dict.get` calls) and every expression that can raise (f-string
formats, slices, `len`, `lower`) are sequenced in the source's evaluation
order; the remaining tree construction is pure. -/

/-- The body of the `for cause in root_causes:` loop of
`create_cost_anomaly_message`: one data row of the root-causes table, with
service names longer than 35 characters truncated to their first 32 plus
an ellipsis. -/
def cost_row (cause : Json) : Except PyErr TableRow := do
  let service ← jget cause "service" (.str "Unknown Service")
  let linked ← jget cause "linkedAccountName" (.str "Unknown")
  let impact_contrib ← jget cause "impactContribution" (.num 0)
  let n ← pyLen service
  let service2 ← if 35 < n then do
      let s ← jslice 32 service
      pyAddStr s "..."
    else pure service
  let pctS ← pyFormatFixed impact_contrib 1
  pure (TableRow.mk [
    TableCell.mk [textBlock service2 none (some "Small") none (some true) none none],
    TableCell.mk [textBlock linked none (some "Small") none (some true) none none],
    TableCell.mk [textBlock (.str (pctS ++ "%"))
      none (some "Small") (some "attention") (some true) none none]])

/-- The header row of the root-causes table. -/
def cost_header_row : TableRow := TableRow.mk [
  TableCell.mk [textBlock (.str "**Service**") (some "Bolder") none none (some true) none none],
  TableCell.mk [textBlock (.str "**Account**") (some "Bolder") none none (some true) none none],
  TableCell.mk [textBlock (.str "**Impact %**") (some "Bolder") none none (some true) none none]]

/-- The `# Add root causes table if available` block of
`create_cost_anomaly_message`: when the (already sliced) `root_causes` value
is truthy, build one data row per element and append a container holding the
header line and the table; otherwise leave the body unchanged. -/
def cost_table_branch (root_causes : Json) (body_blocks : List BodyBlock) :
    Except PyErr (List BodyBlock) :=
  if truthy root_causes then do
    let elems ← jelements root_causes
    let data_rows ← exceptMap cost_row elems
    let n ← pyLen root_causes
    pure (body_blocks ++ [containerBlock "default" (some "Large") [
      textBlock (.str ("🔍 **Top " ++ Nat.repr n ++ " Contributing Services**"))
        (some "Bolder") (some "Medium") (some "default") (some true) none none,
      tableOf (Table.mk [TableColumn.mk (some "3"), TableColumn.mk (some "2"),
        TableColumn.mk (some "1")] (cost_header_row :: data_rows) true true (some "Small"))]])
  else pure body_blocks

/-- The `body_blocks = [...]` assignment of `create_cost_anomaly_message`:
header, fact set, and cost-impact container, parameterized by the extracted
fields and the already-evaluated f-string formats. -/
def cost_body_blocks (account_name monitor_name start10 end10 : Json)
    (csS msS expS actS impS pctS : String) : List BodyBlock := [
  containerBlock "attention" (some "Medium")
    [textBlock (.str "💰 ⚠️ AWS Cost Anomaly Detected")
      (some "Bolder") (some "Large") (some "Attention") (some true) none none],
  factSetOf (FactSetBlock.mk [
      Fact.mk "📊 Account" account_name,
      Fact.mk "🔍 Monitor" monitor_name,
      Fact.mk "📅 Period" (.str (pyStr start10 ++ " to " ++ pyStr end10)),
      Fact.mk "🎯 Anomaly Score" (.str (csS ++ " (max: " ++ msS ++ ")"))]
    (some "Medium") none),
  containerBlock "emphasis" (some "Large") [
    textBlock (.str "💸 **Cost Impact Analysis**")
      (some "Bolder") (some "Medium") (some "default") (some true) none none,
    columnSetBlock (some "Medium") [
      columnOf "50%" [
        textBlock (.str "**Expected Spend:**")
          (some "Bolder") none (some "good") (some true) none none,
        textBlock (.str ("$" ++ expS))
          (some "Bolder") (some "Large") (some "good") (some true) none none],
      columnOf "50%" [
        textBlock (.str "**Actual Spend:**")
          (some "Bolder") none (some "attention") (some true) none none,
        textBlock (.str ("$" ++ actS))
          (some "Bolder") (some "Large") (some "attention") (some true) none none]],
    containerBlock "attention" (some "Small") [
      textBlock (.str ("**Overspend: $" ++ impS ++ " (" ++ pctS ++ "% increase)**"))
        (some "Bolder") (some "Medium") (some "attention") (some true) none (some "Center")]]]

/-- `create_cost_anomaly_message`. -/
def create_cost_anomaly_message (message_json : Json) : Except PyErr TeamsMessage := do
  let account_name ← jget message_json "accountName" (.str "Unknown Account")
  let monitor_name ← jget message_json "monitorName" (.str "Unknown Monitor")
  let anomaly_start ← jget message_json "anomalyStartDate" (.str "")
  let anomaly_end ← jget message_json "anomalyEndDate" (.str "")
  let impact ← jget message_json "impact" (.obj [])
  let total_actual ← jget impact "totalActualSpend" (.num 0)
  let total_expected ← jget impact "totalExpectedSpend" (.num 0)
  let total_impact ← jget impact "totalImpact" (.num 0)
  let impact_percentage ← jget impact "totalImpactPercentage" (.num 0)
  let anomaly_score ← jget message_json "anomalyScore" (.obj [])
  let current_score ← jget anomaly_score "currentScore" (.num 0)
  let max_score ← jget anomaly_score "maxScore" (.num 0)
  let rc0 ← jget message_json "rootCauses" (.arr [])
  let root_causes ← jslice 5 rc0
  let details_link ← jget message_json "anomalyDetailsLink" (.str "")
  let start10 ← jslice 10 anomaly_start
  let end10 ← jslice 10 anomaly_end
  let csS ← pyFormatFixed current_score 2
  let msS ← pyFormatFixed max_score 2
  let expS ← pyFormatFixed total_expected 2
  let actS ← pyFormatFixed total_actual 2
  let impS ← pyFormatFixed total_impact 2
  let pctS ← pyFormatFixed impact_percentage 1
  let body_blocks := cost_body_blocks account_name monitor_name start10 end10
    csS msS expS actS impS pctS
  let bbs ← cost_table_branch root_causes body_blocks
  let actions := if truthy details_link then
      [Action.mk "Action.OpenUrl" "🔗 View in AWS Console" (some details_link) (some "positive")]
    else []
  pure (teamsWrap (Content.mk defaultSchema "AdaptiveCard" "1.2" bbs actions))

/-- `create_cloudtrail_message` (the AuditEvent renderer, applied to the
payload's nested `detail` mapping). -/
def create_cloudtrail_message (message_json_detail : Json) : Except PyErr TeamsMessage := do
  let alarm_name ← jget message_json_detail "eventName" (.str "Unknown Event")
  let event_type ← jget message_json_detail "eventType" (.str "Unknown Type")
  let event_id ← jget message_json_detail "eventID" (.str "Unknown ID")
  let event_time ← jget message_json_detail "eventTime" (.str "Unknown Time")
  let reason ← jget message_json_detail "errorMessage" (.str "No error message provided")
  pure (teamsWrap (Content.mk defaultSchema "AdaptiveCard" "1.2" [
    containerBlock "good" (some "Medium")
      [textBlock (.str (EMOJI_CLOUDTRAIL ++ " " ++ EMOJI_SUCCESS ++ " CloudTrail Event"))
        (some "Bolder") (some "Large") (some "Good") (some true) none none],
    containerBlock "default" (some "Medium") [
      columnSetBlock none [
        columnOf "auto" [
          textBlock (.str (EMOJI_TARGET ++ " **Action:**"))
            (some "Bolder") none (some "default") (some true) none none,
          textBlock (.str "🌐 **Type:**")
            (some "Bolder") none (some "default") (some true) (some "Small") none,
          textBlock (.str "🔗 **Event ID:**")
            (some "Bolder") none (some "default") (some true) (some "Small") none,
          textBlock (.str (EMOJI_TIME ++ " **Timestamp:**"))
            (some "Bolder") none (some "default") (some true) (some "Small") none],
        columnOf "stretch" [
          textBlock alarm_name none none (some "good") (some true) none none,
          textBlock event_type none none (some "default") (some true) (some "Small") none,
          textBlock event_id none none (some "default") (some true) (some "Small") none,
          textBlock event_time none none (some "default") (some true) (some "Small") none]]],
    containerBlock "attention" (some "Medium") [
      textBlock (.str (EMOJI_ERROR ++ " Error Details"))
        (some "Bolder") (some "Medium") (some "attention") (some true) none none,
      containerBlock "default" (some "Small")
        [BodyBlock.mk (some "TextBlock") (some reason) (some "Default") none (some "attention")
          [] [] [] none none none none none (some true) none none]]] []))

/-- `create_cloudwatch_alarm_message`.  `now` is the value
`datetime.now().isoformat()` would produce (the `StateChangeTime` default). -/
def create_cloudwatch_alarm_message (now : String) (message_json : Json) :
    Except PyErr TeamsMessage := do
  let alarm_name ← jget message_json "AlarmName" (.str "Unknown Alarm")
  let old_state ← jget message_json "OldStateValue" (.str "Unknown")
  let new_state ← jget message_json "NewStateValue" (.str "Unknown")
  let reason ← jget message_json "NewStateReason" (.str "No reason provided")
  let timestamp ← jget message_json "StateChangeTime" (.str now)
  let lowered ← pyLower new_state
  let style := if lowered = "alarm" then "attention" else "good"
  let title_color := if lowered = "alarm" then "Attention" else "Good"
  let title_text := if lowered = "alarm" then
      EMOJI_ERROR ++ " " ++ EMOJI_WARNING ++ " CloudWatch Alarm - " ++ pyStr alarm_name
    else
      EMOJI_SUCCESS ++ " " ++ EMOJI_INFO ++ " CloudWatch Alarm Resolved - " ++ pyStr alarm_name
  let state_color := if lowered = "alarm" then "attention" else "good"
  pure (teamsWrap (Content.mk defaultSchema "AdaptiveCard" "1.2" [
    containerBlock style (some "Medium")
      [textBlock (.str title_text)
        (some "Bolder") (some "Large") (some title_color) (some true) none none],
    containerBlock "default" (some "Medium") [
      columnSetBlock none [
        columnOf "auto" [
          textBlock (.str (EMOJI_TARGET ++ " **Alarm:**"))
            (some "Bolder") none (some "default") (some true) none none,
          textBlock (.str "📊 **Old State:**")
            (some "Bolder") none (some "default") (some true) (some "Small") none,
          textBlock (.str "📈 **New State:**")
            (some "Bolder") none (some "default") (some true) (some "Small") none,
          textBlock (.str (EMOJI_TIME ++ " **Timestamp:**"))
            (some "Bolder") none (some "default") (some true) (some "Small") none],
        columnOf "stretch" [
          textBlock alarm_name none none (some state_color) (some true) none none,
          textBlock old_state none none (some "default") (some true) (some "Small") none,
          textBlock new_state none none (some state_color) (some true) (some "Small") none,
          textBlock timestamp none none (some "default") (some true) (some "Small") none]]],
    containerBlock "default" (some "Medium") [
      textBlock (.str (EMOJI_INFO ++ " **Reason:**"))
        (some "Bolder") (some "Medium") (some "default") (some true) none none,
      textBlock reason none none (some "default") (some true) (some "Small") none]] []))

/-- `create_generic_message`, applied to the SNS envelope record. -/
def create_generic_message (now : String) (sns_record : Json) : Except PyErr TeamsMessage := do
  let subject ← jget sns_record "Subject" (.str "Unknown Subject")
  let message_body ← jget sns_record "Message" (.str "No message body")
  let timestamp ← jget sns_record "Timestamp" (.str now)
  let topic_arn ← jget sns_record "TopicArn" (.str "Unknown Topic")
  let message_id ← jget sns_record "MessageId" (.str "Unknown Message ID")
  pure (teamsWrap (Content.mk defaultSchema "AdaptiveCard" "1.2" [
    containerBlock "attention" (some "Medium")
      [textBlock (.str (EMOJI_WARNING ++ " " ++ EMOJI_INFO ++ " AWS Notification - "
          ++ pyStr subject))
        (some "Bolder") (some "Large") (some "Attention") (some true) none none],
    containerBlock "default" (some "Medium") [
      columnSetBlock none [
        columnOf "auto" [
          textBlock (.str "📋 **Subject:**")
            (some "Bolder") none (some "default") (some true) none none,
          textBlock (.str "🔗 **Topic ARN:**")
            (some "Bolder") none (some "default") (some true) (some "Small") none,
          textBlock (.str "🆔 **Message ID:**")
            (some "Bolder") none (some "default") (some true) (some "Small") none,
          textBlock (.str (EMOJI_TIME ++ " **Timestamp:**"))
            (some "Bolder") none (some "default") (some true) (some "Small") none],
        columnOf "stretch" [
          textBlock subject none none (some "attention") (some true) none none,
          textBlock topic_arn none none (some "default") (some true) (some "Small") none,
          textBlock message_id none none (some "default") (some true) (some "Small") none,
          textBlock timestamp none none (some "default") (some true) (some "Small") none]]],
    containerBlock "default" (some "Medium") [
      textBlock (.str (EMOJI_INFO ++ " **Message:**"))
        (some "Bolder") (some "Medium") (some "default") (some true) none none,
      textBlock message_body none none (some "default") (some true) (some "Small") none]] []))

/-- `create_error_message`: the card the entry point synthesizes from a
caught exception; pure, never fails.  `now` models
`datetime.now().isoformat()`. -/
def create_error_message (now : String) (error_text : String) : TeamsMessage :=
  teamsWrap (Content.mk defaultSchema "AdaptiveCard" "1.2" [
    containerBlock "attention" (some "Medium")
      [textBlock (.str (EMOJI_ERROR ++ " " ++ EMOJI_WARNING ++ " Lambda Function Error"))
        (some "Bolder") (some "Large") (some "Attention") (some true) none none],
    containerBlock "default" (some "Medium") [
      textBlock (.str (EMOJI_ERROR ++ " **Error Details:**"))
        (some "Bolder") (some "Medium") (some "attention") (some true) none none,
      textBlock (.str error_text) none none (some "attention") (some true) (some "Small") none,
      textBlock (.str (EMOJI_TIME ++ " **Timestamp:**"))
        (some "Bolder") none (some "default") (some true) (some "Small") none,
      textBlock (.str now) none none (some "default") (some true) (some "Small") none]] [])

/-! ## Delivery -/

/-- Outcome of the single `urlopen` call of an invocation. -/
inductive SendOutcome where
  | success
  | httpError (code : Nat) (reason : String)
  | urlError (reason : String)

/-- What `send_teams_message` logged. -/
inductive SendLog where
  | posted
  | requestFailed (code : Nat) (reason : String)
  | connectionFailed (reason : String)

/-- `send_teams_message`: one blocking POST; an `HTTPError` or `URLError` is
caught and logged, never re-raised — the function is total and returns only
its log line. -/
def send_teams_message (outcome : SendOutcome) (_teams_message : TeamsMessage) : SendLog :=
  match outcome with
  | .success => .posted
  | .httpError code reason => .requestFailed code reason
  | .urlError reason => .connectionFailed reason

/-! ## Classifier and entry point -/

/-- `is_cost_anomaly_message`: all four marker keys present (each `in` test
can itself raise on a non-container payload, short-circuiting left to
right). -/
def is_cost_anomaly_message (message_json : Json) : Except PyErr Bool := do
  let a ← pyIn "accountId" message_json
  if a then do
    let b ← pyIn "anomalyId" message_json
    if b then do
      let c ← pyIn "monitorArn" message_json
      if c then pyIn "impact" message_json
      else pure false
    else pure false
  else pure false

/-- `is_cloudwatch_alarm`: re-parse the raw message text and test
`message_json['AlarmName']` for truthiness; only `ValueError` (JSON decode
failure) is caught, yielding `False`. -/
def is_cloudwatch_alarm (loads : String → Except String Json) (message : String) :
    Except PyErr Bool :=
  match loads message with
  | .error _ => .ok false
  | .ok message_json =>
    match jsub message_json "AlarmName" with
    | .ok v => .ok (truthy v)
    | .error e => .error e

/-- `event['Records'][0]['Sns']['Message']`. -/
def getMessage (event : Json) : Except PyErr Json := do
  let records ← jsub event "Records"
  let first ← jidx records 0
  let sns ← jsub first "Sns"
  jsub sns "Message"

/-- `event['Records'][0]['Sns']`. -/
def getSns (event : Json) : Except PyErr Json := do
  let records ← jsub event "Records"
  let first ← jidx records 0
  jsub first "Sns"

/-- The body of the `try:` block of `lambda_handler`: extract the message,
parse it, classify, and render — the message that would be sent on the happy
path, or the first exception raised. -/
def tryBlock (loads : String → Except String Json) (now : String) (event : Json) :
    Except PyErr TeamsMessage := do
  let messageJ ← getMessage event
  let message ← match messageJ with
    | .str s => Except.ok s
    | _ => Except.error (PyErr.typeError
        "the JSON object must be str, bytes or bytearray")
  let message_json ← match loads message with
    | .ok j => Except.ok j
    | .error m => Except.error (PyErr.valueError m)
  let sns_record ← getSns event
  let hasAlarmName ← pyIn "AlarmName" message_json
  if hasAlarmName then do
    let isAlarm ← is_cloudwatch_alarm loads message
    if isAlarm then create_cloudwatch_alarm_message now message_json
    else create_generic_message now sns_record
  else do
    let hasDetailType ← pyIn "detail-type" message_json
    let isTrail ← if hasDetailType then do
        let v ← jsub message_json "detail-type"
        pure (match v with
          | .str s => s = "AWS Service Event via CloudTrail"
          | _ => false)
      else pure false
    if isTrail then do
      let detail ← jsub message_json "detail"
      create_cloudtrail_message detail
    else do
      let isCost ← is_cost_anomaly_message message_json
      if isCost then create_cost_anomaly_message message_json
      else create_generic_message now sns_record

/-- `lambda_handler`: the try block's card is delivered; any exception it
raised is caught, converted into the error card, and that card is delivered
instead.  Total by construction — nothing propagates.  Returns the delivered
message and the delivery log. -/
def lambda_handler (loads : String → Except String Json) (now : String)
    (outcome : SendOutcome) (event : Json) : TeamsMessage × SendLog :=
  match tryBlock loads now event with
  | .ok m => (m, send_teams_message outcome m)
  | .error e =>
    let error_message := create_error_message now (PyErr.str e)
    (error_message, send_teams_message outcome error_message)

/-! ## Statement helpers: paths into serialized documents, invariants,
well-shapedness of payloads -/

/-- One step of a path into a serialized JSON document. -/
inductive JStep where
  | key (k : String)
  | idx (i : Nat)

/-- Path step: object key. -/
def jk (k : String) : JStep := JStep.key k

/-- Path step: array index. -/
def ji (i : Nat) : JStep := JStep.idx i

/-- Follow a key/index path into a JSON value. -/
def jpath : Json → List JStep → Option Json
  | j, [] => some j
  | j, JStep.key k :: ps =>
    match j with
    | .obj kvs => match jlookup kvs k with
      | some v => jpath v ps
      | none => none
    | _ => none
  | j, JStep.idx i :: ps =>
    match j with
    | .arr xs => match xs.get? i with
      | some v => jpath v ps
      | none => none
    | _ => none

/-- A path into the card content of a serialized `TeamsMessage`:
`attachments[0].content` followed by `ps`. -/
def msgPath (m : TeamsMessage) (ps : List JStep) : Option Json :=
  jpath m.to_dict ([jk "attachments", ji 0, jk "content"] ++ ps)

/-- Length of a JSON array. -/
def jarrLen : Json → Option Nat
  | .arr xs => some xs.length
  | _ => none

/-- `s` contains `t` as a contiguous substring. -/
def containsStr (s t : String) : Prop := ∃ a b, s = a ++ t ++ b

mutual
/-- No key of any object in the document holds `null`, except a `contentUrl`
key (explicitly nullable by the card schema). -/
def noNullVals : Json → Bool
  | .obj kvs => noNullKVs kvs
  | .arr xs => noNullList xs
  | _ => true

def noNullList : List Json → Bool
  | [] => true
  | x :: xs => noNullVals x && noNullList xs

def noNullKVs : List (String × Json) → Bool
  | [] => true
  | (k, v) :: kvs => (k = "contentUrl" || !v.isNull) && noNullVals v && noNullKVs kvs
end

/-- The key is absent, or its value is a string. -/
def strOrAbsent (kvs : List (String × Json)) (k : String) : Bool :=
  match jlookup kvs k with
  | none => true
  | some (.str _) => true
  | some _ => false

/-- The key is absent, or its value is a number. -/
def numOrAbsent (kvs : List (String × Json)) (k : String) : Bool :=
  match jlookup kvs k with
  | none => true
  | some (.num _) => true
  | some _ => false

/-- A payload shape on which `create_cloudwatch_alarm_message` is exercised
as intended: a mapping whose alarm fields, where present, are strings. -/
def wellShapedAlarm : Json → Bool
  | .obj kvs => strOrAbsent kvs "AlarmName" && strOrAbsent kvs "OldStateValue"
      && strOrAbsent kvs "NewStateValue" && strOrAbsent kvs "NewStateReason"
      && strOrAbsent kvs "StateChangeTime"
  | _ => false

/-- A detail mapping whose audit fields, where present, are strings. -/
def wellShapedTrail : Json → Bool
  | .obj kvs => strOrAbsent kvs "eventName" && strOrAbsent kvs "eventType"
      && strOrAbsent kvs "eventID" && strOrAbsent kvs "eventTime"
      && strOrAbsent kvs "errorMessage"
  | _ => false

/-- An SNS envelope whose fields, where present, are strings. -/
def wellShapedGeneric : Json → Bool
  | .obj kvs => strOrAbsent kvs "Subject" && strOrAbsent kvs "Message"
      && strOrAbsent kvs "Timestamp" && strOrAbsent kvs "TopicArn"
      && strOrAbsent kvs "MessageId"
  | _ => false

/-- One root-cause entry of expected shape: a mapping with string
service/account names and a numeric impact contribution, where present. -/
def wellShapedCause : Json → Bool
  | .obj kvs => strOrAbsent kvs "service" && strOrAbsent kvs "linkedAccountName"
      && numOrAbsent kvs "impactContribution"
  | _ => false

/-- A cost-anomaly payload of expected shape: sub-mappings with numeric
spend/score fields, string dates and names, and a list of well-shaped root
causes, each where present. -/
def wellShapedCost : Json → Bool
  | .obj kvs => strOrAbsent kvs "accountName" && strOrAbsent kvs "monitorName"
      && strOrAbsent kvs "anomalyStartDate" && strOrAbsent kvs "anomalyEndDate"
      && (match jlookup kvs "impact" with
          | none => true
          | some (.obj ik) => numOrAbsent ik "totalActualSpend"
              && numOrAbsent ik "totalExpectedSpend" && numOrAbsent ik "totalImpact"
              && numOrAbsent ik "totalImpactPercentage"
          | some _ => false)
      && (match jlookup kvs "anomalyScore" with
          | none => true
          | some (.obj sk) => numOrAbsent sk "currentScore" && numOrAbsent sk "maxScore"
          | some _ => false)
      && (match jlookup kvs "rootCauses" with
          | none => true
          | some (.arr xs) => xs.all wellShapedCause
          | some _ => false)
      && strOrAbsent kvs "anomalyDetailsLink"
  | _ => false

/-! ## Tree accessors

Projections out of the constructed card tree (the Python objects before
serialization), used to state properties of renderer output. -/

/-- The `style` attribute of a body block. -/
def BodyBlock.styleOf : BodyBlock → Option String
  | .mk _ _ _ _ _ _ _ _ style _ _ _ _ _ _ _ => style

/-- The `text` attribute of a body block. -/
def BodyBlock.textOf : BodyBlock → Option Json
  | .mk _ text _ _ _ _ _ _ _ _ _ _ _ _ _ _ => text

/-- The `color` attribute of a body block. -/
def BodyBlock.colorOf : BodyBlock → Option String
  | .mk _ _ _ _ color _ _ _ _ _ _ _ _ _ _ _ => color

/-- The `items` attribute of a body block. -/
def BodyBlock.itemsOf : BodyBlock → List BodyBlock
  | .mk _ _ _ _ _ _ _ items _ _ _ _ _ _ _ _ => items

/-- The `columns` attribute of a body block. -/
def BodyBlock.columnsOf : BodyBlock → List ColumnSet
  | .mk _ _ _ _ _ _ columns _ _ _ _ _ _ _ _ _ => columns

/-- The `table` attribute of a body block. -/
def BodyBlock.tablePart : BodyBlock → Option Table
  | .mk _ _ _ _ _ _ _ _ _ _ _ _ _ _ _ table => table

/-- The `fact_set_block` attribute of a body block. -/
def BodyBlock.factsPart : BodyBlock → Option FactSetBlock
  | .mk _ _ _ _ _ _ _ _ _ _ _ _ _ _ fsb _ => fsb

/-- The `items` of a column. -/
def ColumnSet.itemsOf : ColumnSet → List BodyBlock
  | .mk _ _ items => items

/-- The `rows` of a table. -/
def Table.rowsOf : Table → List TableRow
  | .mk _ rows _ _ _ => rows

/-- The `first_row_as_header` flag of a table. -/
def Table.firstRowHeaderOf : Table → Bool
  | .mk _ _ h _ _ => h

/-- The `show_grid_lines` flag of a table. -/
def Table.showGridLinesOf : Table → Bool
  | .mk _ _ _ g _ => g

/-- The `cells` of a table row. -/
def TableRow.cellsOf : TableRow → List TableCell
  | .mk cells => cells

/-- The `items` of a table cell. -/
def TableCell.itemsOf : TableCell → List BodyBlock
  | .mk items => items

/-- The card body carried by a message: the `body` of the single
attachment's content. -/
def cardBody (m : TeamsMessage) : List BodyBlock :=
  match m.attachments with
  | [a] => match a.content with
    | some c => c.body
    | none => []
  | _ => []

/-- The `i`-th top-level block of a message's card body. -/
def blockAt (m : TeamsMessage) (i : Nat) : Option BodyBlock := (cardBody m).get? i

/-- The `i`-th child of a block. -/
def itemAt (b : Option BodyBlock) (i : Nat) : Option BodyBlock :=
  b.bind fun x => x.itemsOf.get? i

/-- The `i`-th item of the `ci`-th column of a column-set block. -/
def columnItemAt (b : Option BodyBlock) (ci i : Nat) : Option BodyBlock :=
  (b.bind fun x => x.columnsOf.get? ci).bind fun col => col.itemsOf.get? i

/-- The text attribute reached through an optional block. -/
def textAt (b : Option BodyBlock) : Option Json := b.bind BodyBlock.textOf

/-- The color attribute reached through an optional block. -/
def colorAt (b : Option BodyBlock) : Option String := b.bind BodyBlock.colorOf

/-- The style attribute reached through an optional block. -/
def styleAt (b : Option BodyBlock) : Option String := b.bind BodyBlock.styleOf

/-- The value of the `fi`-th fact of the fact-set at top-level block `bi`. -/
def factValueAt (m : TeamsMessage) (bi fi : Nat) : Option Json :=
  ((blockAt m bi).bind BodyBlock.factsPart).bind fun fsb =>
    (fsb.facts.get? fi).map Fact.value

/-- The root-causes table of a cost-anomaly card: second item of the fourth
top-level block. -/
def costTable (m : TeamsMessage) : Option Table :=
  (itemAt (blockAt m 3) 1).bind BodyBlock.tablePart

/-- The text of the first item of cell `j` of row `i`. -/
def rowCellText (rows : List TableRow) (i j : Nat) : Option Json :=
  (((rows.get? i).bind fun r => r.cellsOf.get? j).bind fun cell =>
    cell.itemsOf.get? 0).bind BodyBlock.textOf

/-- The service-name text of a root-cause data row (first item of its first
cell). -/
def rowFirstCellText (r : TableRow) : Option Json :=
  ((r.cellsOf.get? 0).bind fun cell => cell.itemsOf.get? 0).bind BodyBlock.textOf

/-- The error-text block of the error card (`body[1].items[1].text`). -/
def errCardText (m : TeamsMessage) : Option Json := textAt (itemAt (blockAt m 1) 1)

/-- The timestamp block of the error card (`body[1].items[3].text`). -/
def errCardTime (m : TeamsMessage) : Option Json := textAt (itemAt (blockAt m 1) 3)

/-- The Error Details message of an audit card
(`body[2].items[1].items[0].text`). -/
def trailErrText (m : TeamsMessage) : Option Json :=
  textAt (itemAt (itemAt (blockAt m 2) 1) 0)

/-- Spec wording for the rendered service name of a root-cause row: names of
more than 35 characters are cut to their first 32 characters plus an
ellipsis, shorter names appear verbatim. -/
def specServiceText (s : String) : String :=
  if 35 < s.length then String.mk (s.data.take 32) ++ "..." else s

/-- The envelope/wire-format invariant of every outbound message: type
`message`, exactly one attachment of the adaptive-card content type with an
explicitly null `contentUrl`, and a content carrying the card schema, type
tag and version 1.2. -/
def envelopeOk (m : TeamsMessage) : Prop :=
  jpath m.to_dict [jk "type"] = some (.str "message") ∧
  (jpath m.to_dict [jk "attachments"]).bind jarrLen = some 1 ∧
  jpath m.to_dict [jk "attachments", ji 0, jk "contentType"]
    = some (.str "application/vnd.microsoft.card.adaptive") ∧
  jpath m.to_dict [jk "attachments", ji 0, jk "contentUrl"] = some Json.null ∧
  msgPath m [jk "$schema"] = some (.str defaultSchema) ∧
  msgPath m [jk "type"] = some (.str "AdaptiveCard") ∧
  msgPath m [jk "version"] = some (.str "1.2")

/-- Every success of this computation is a standard-wrapped card document. -/
def endsWrapped (x : Except PyErr TeamsMessage) : Prop :=
  ∀ m, x = .ok m → ∃ body actions,
    m = teamsWrap (Content.mk defaultSchema "AdaptiveCard" "1.2" body actions)

/-! ## Concrete inputs used by witnesses and the counterexample -/

/-- A CloudTrail `detail` mapping (the spec's audit scenario). -/
def trailDetail : Json := .obj [("eventName", .str "StopInstances"),
  ("errorMessage", .str "Access Denied")]

/-- An SNS event whose first record's message text is `"MSG"`. -/
def evAlarm : Json := .obj [("Records", .arr [.obj [("Sns", .obj [
  ("Message", .str "MSG"), ("Subject", .str "sub")])]])]

/-- A `json.loads` behaviour mapping `"MSG"` to the alarm payload of the
spec's alarm scenario and failing on anything else. -/
def loadsA : String → Except String Json := fun s =>
  if s = "MSG" then .ok (.obj [("AlarmName", .str "cpu-high"),
    ("NewStateValue", .str "ALARM"), ("OldStateValue", .str "OK"),
    ("NewStateReason", .str "threshold breached")])
  else .error "Expecting value: line 1 column 1 (char 0)"

/-- A `json.loads` behaviour mapping `"MSG"` to a CloudTrail-tagged payload
that lacks the `detail` key. -/
def loadsNoDetail : String → Except String Json := fun s =>
  if s = "MSG" then .ok (.obj [
    ("detail-type", .str "AWS Service Event via CloudTrail"),
    ("eventName", .str "StopInstances")])
  else .error "Expecting value: line 1 column 1 (char 0)"

/-- A cost-anomaly payload in canonical field order, quantified over every
field value: arbitrary account/monitor/details-link values, string dates,
rational spend and score figures, and an arbitrary root-cause list. -/
def mkCostPayload (av mv : Json) (sd ed : String) (ta te ti pct cs ms : Rat)
    (rcs : List Json) (dl : Json) : Json :=
  .obj [("accountName", av), ("monitorName", mv),
        ("anomalyStartDate", .str sd), ("anomalyEndDate", .str ed),
        ("impact", .obj [("totalActualSpend", .num ta), ("totalExpectedSpend", .num te),
          ("totalImpact", .num ti), ("totalImpactPercentage", .num pct)]),
        ("anomalyScore", .obj [("currentScore", .num cs), ("maxScore", .num ms)]),
        ("rootCauses", .arr rcs), ("anomalyDetailsLink", dl)]

/-- A well-shaped cost-anomaly payload with one root cause whose service
name is 40 characters long. -/
def costPayload : Json := .obj [
  ("accountName", .str "prod"),
  ("impact", .obj [("totalImpact", .num 150), ("totalImpactPercentage", .num 25),
    ("totalActualSpend", .num 750), ("totalExpectedSpend", .num 600)]),
  ("anomalyScore", .obj [("currentScore", .num 87), ("maxScore", .num 95)]),
  ("rootCauses", .arr [.obj [("service", .str "Amazon Elastic Compute Cloud - Computing"),
    ("linkedAccountName", .str "prod"), ("impactContribution", .num 60)]])]

/-- One short root cause entry. -/
def causeS : Json := .obj [("service", .str "AmazonS3"), ("impactContribution", .num 10)]

/-- A cost-anomaly payload carrying five root causes. -/
def costPayload5 : Json := .obj [
  ("accountName", .str "prod"),
  ("rootCauses", .arr [causeS, causeS, causeS, causeS, causeS])]

/-- A cost-anomaly payload whose `accountName` is JSON `null` (a value the
serialized card copies verbatim into a fact value). -/
def costPayloadNull : Json := .obj [("accountName", .null)]

/-! ## Proof toolkit -/

theorem exBind_ok {α β : Type} {x : Except PyErr α} {f : α → Except PyErr β} {b : β} :
    (x >>= f) = .ok b ↔ ∃ a, x = .ok a ∧ f a = .ok b := by
  cases x <;> simp [Bind.bind, Except.bind]

theorem exPure_ok {α : Type} {a b : α} : (pure a : Except PyErr α) = .ok b ↔ a = b := by
  simp [pure, Except.pure]

theorem str_break (lit pre suf : String) (hl : pre ++ suf = lit) (p : String) :
    lit ++ p = pre ++ (suf ++ p) := by
  rw [← hl, String.append_assoc]

theorem strOrAbsent_findD (kvs : List (String × Json)) (k d : String)
    (h : strOrAbsent kvs k = true) : ∃ s, jfindD kvs k (.str d) = Json.str s := by
  unfold strOrAbsent at h
  unfold jfindD
  cases hl : jlookup kvs k with
  | none => exact ⟨d, rfl⟩
  | some v => cases v <;> simp [hl] at h ⊢

theorem numOrAbsent_findD (kvs : List (String × Json)) (k : String) (d : Rat)
    (h : numOrAbsent kvs k = true) : ∃ q, jfindD kvs k (.num d) = Json.num q := by
  unfold numOrAbsent at h
  unfold jfindD
  cases hl : jlookup kvs k with
  | none => exact ⟨d, rfl⟩
  | some v => cases v <;> simp [hl] at h ⊢

theorem endsWrapped_bind {α : Type} (x : Except PyErr α) (f : α → Except PyErr TeamsMessage)
    (hf : ∀ a, endsWrapped (f a)) : endsWrapped (x >>= f) := by
  intro m hm
  rw [exBind_ok] at hm
  obtain ⟨a, _, h2⟩ := hm
  exact hf a m h2

theorem endsWrapped_pure (body : List BodyBlock) (actions : List Action) :
    endsWrapped (pure (teamsWrap (Content.mk defaultSchema "AdaptiveCard" "1.2" body actions))) := by
  intro m hm
  rw [exPure_ok] at hm
  exact ⟨body, actions, hm.symm⟩

theorem envelopeOk_wrap (body : List BodyBlock) (actions : List Action) :
    envelopeOk (teamsWrap (Content.mk defaultSchema "AdaptiveCard" "1.2" body actions)) := by
  unfold envelopeOk msgPath teamsWrap
  refine ⟨rfl, rfl, rfl, rfl, ?_, ?_, ?_⟩ <;>
    simp [TeamsMessage.to_dict, Attachment.to_dict, Content.to_dict, jpath, jlookup]

theorem cost_wrapped (mj : Json) : endsWrapped (create_cost_anomaly_message mj) := by
  unfold create_cost_anomaly_message
  repeat (apply endsWrapped_bind; intro _)
  exact endsWrapped_pure _ _

theorem trail_wrapped (d : Json) : endsWrapped (create_cloudtrail_message d) := by
  unfold create_cloudtrail_message
  repeat (apply endsWrapped_bind; intro _)
  exact endsWrapped_pure _ _

theorem alarm_wrapped (now : String) (mj : Json) :
    endsWrapped (create_cloudwatch_alarm_message now mj) := by
  unfold create_cloudwatch_alarm_message
  repeat (apply endsWrapped_bind; intro _)
  exact endsWrapped_pure _ _

theorem generic_wrapped (now : String) (sns : Json) :
    endsWrapped (create_generic_message now sns) := by
  unfold create_generic_message
  repeat (apply endsWrapped_bind; intro _)
  exact endsWrapped_pure _ _

/-- C8: every message produced by any of the five renderers serializes to a
top-level mapping of type `message` holding exactly one attachment of the
adaptive-card content type, a null `contentUrl`, and a content with the card
schema URL, type `AdaptiveCard` and version `1.2`. -/
theorem renderers_envelope :
    (∀ mj m, create_cost_anomaly_message mj = .ok m → envelopeOk m)
    ∧ (∀ d m, create_cloudtrail_message d = .ok m → envelopeOk m)
    ∧ (∀ now mj m, create_cloudwatch_alarm_message now mj = .ok m → envelopeOk m)
    ∧ (∀ now sns m, create_generic_message now sns = .ok m → envelopeOk m)
    ∧ (∀ now s, envelopeOk (create_error_message now s)) := by
  refine ⟨?_, ?_, ?_, ?_, ?_⟩
  · intro mj m hm
    obtain ⟨b, a, rfl⟩ := cost_wrapped mj m hm
    exact envelopeOk_wrap b a
  · intro d m hm
    obtain ⟨b, a, rfl⟩ := trail_wrapped d m hm
    exact envelopeOk_wrap b a
  · intro now mj m hm
    obtain ⟨b, a, rfl⟩ := alarm_wrapped now mj m hm
    exact envelopeOk_wrap b a
  · intro now sns m hm
    obtain ⟨b, a, rfl⟩ := generic_wrapped now sns m hm
    exact envelopeOk_wrap b a
  · intro now s
    exact envelopeOk_wrap _ _

/-- Witness for C8 at concrete inputs: the audit scenario detail and the
cost payload both render, and their envelopes check out. -/
theorem renderers_envelope_witness :
    (∃ m, create_cloudtrail_message trailDetail = .ok m ∧ envelopeOk m)
    ∧ (∃ m, create_cost_anomaly_message costPayload = .ok m ∧ envelopeOk m) :=
  ⟨⟨_, rfl, renderers_envelope.2.1 trailDetail _ rfl⟩,
   ⟨_, rfl, renderers_envelope.1 costPayload _ rfl⟩⟩

/-- C1: when the message text parses to an object carrying the key
`AlarmName`, re-parsing the same text necessarily succeeds with the same
object, so the alarm renderer is selected exactly when that `AlarmName`
value is truthy; otherwise the generic card is rendered from the SNS
envelope.  A failing re-parse inside `is_cloudwatch_alarm` is always
absorbed into `False` (never an exception). -/
theorem classifier_alarm (loads : String → Except String Json) (now : String)
    (event : Json) (msgS : String) (kvs : List (String × Json)) (sns v : Json)
    (hm : getMessage event = .ok (.str msgS))
    (hl : loads msgS = .ok (.obj kvs))
    (hs : getSns event = .ok sns)
    (hv : jlookup kvs "AlarmName" = some v) :
    tryBlock loads now event =
      (if truthy v then create_cloudwatch_alarm_message now (.obj kvs)
       else create_generic_message now sns)
    ∧ is_cloudwatch_alarm loads msgS = .ok (truthy v)
    ∧ (∀ s msg, loads s = .error msg → is_cloudwatch_alarm loads s = .ok false) := by
  have hcw : is_cloudwatch_alarm loads msgS = .ok (truthy v) := by
    unfold is_cloudwatch_alarm
    rw [hl]
    simp [jsub, hv]
  refine ⟨?_, hcw, ?_⟩
  · unfold tryBlock
    rw [hm]
    simp only [Bind.bind, Except.bind, hl, hs, pyIn, hv, Option.isSome, hcw]
    cases htv : truthy v <;> simp
  · intro s msg hmsg
    unfold is_cloudwatch_alarm
    rw [hmsg]

/-- Witness for C1: the spec's alarm scenario — message text `"MSG"` parsing
to the cpu-high ALARM payload — classifies as Alarm, and re-parse failures
yield `False`. -/
theorem classifier_alarm_witness :
    tryBlock loadsA "T" evAlarm =
      create_cloudwatch_alarm_message "T" (.obj [("AlarmName", .str "cpu-high"),
        ("NewStateValue", .str "ALARM"), ("OldStateValue", .str "OK"),
        ("NewStateReason", .str "threshold breached")])
    ∧ is_cloudwatch_alarm loadsA "MSG" = .ok true
    ∧ (∀ s msg, loadsA s = .error msg → is_cloudwatch_alarm loadsA s = .ok false) := by
  have h := classifier_alarm loadsA "T" evAlarm "MSG"
    [("AlarmName", .str "cpu-high"), ("NewStateValue", .str "ALARM"),
     ("OldStateValue", .str "OK"), ("NewStateReason", .str "threshold breached")]
    (.obj [("Message", .str "MSG"), ("Subject", .str "sub")]) (.str "cpu-high")
    rfl rfl rfl rfl
  exact ⟨h.1, h.2.1, h.2.2⟩

/-- C2: the entry point is total — the try block's exception, whatever it
is, is converted into the error card (whose body carries the stringified
exception text and the current timestamp) and that card is delivered; on
success the rendered card is delivered unchanged; and delivery itself only
logs HTTP-status and connection failures. -/
theorem handler_no_propagation (loads : String → Except String Json) (now : String)
    (outcome : SendOutcome) (event : Json) :
    (∀ e, tryBlock loads now event = .error e →
      lambda_handler loads now outcome event =
        (create_error_message now (PyErr.str e),
         send_teams_message outcome (create_error_message now (PyErr.str e))))
    ∧ (∀ m, tryBlock loads now event = .ok m →
      lambda_handler loads now outcome event = (m, send_teams_message outcome m))
    ∧ (∀ e, errCardText (create_error_message now (PyErr.str e))
          = some (.str (PyErr.str e))
        ∧ errCardTime (create_error_message now (PyErr.str e)) = some (.str now))
    ∧ (∀ m code reason,
        send_teams_message (SendOutcome.httpError code reason) m
          = SendLog.requestFailed code reason)
    ∧ (∀ m reason,
        send_teams_message (SendOutcome.urlError reason) m
          = SendLog.connectionFailed reason) := by
  refine ⟨?_, ?_, ?_, ?_, ?_⟩
  · intro e he
    unfold lambda_handler
    rw [he]
  · intro m hm
    unfold lambda_handler
    rw [hm]
  · intro e
    exact ⟨rfl, rfl⟩
  · intro m code reason
    rfl
  · intro m reason
    rfl

/-- Witness for C2: an event with no `Records` key makes the try block raise
`KeyError`, and the delivered card is the error card containing the
stringified exception. -/
theorem handler_no_propagation_witness :
    lambda_handler loadsA "T" SendOutcome.success (.obj []) =
      (create_error_message "T" (PyErr.str (PyErr.keyError "Records")),
       send_teams_message SendOutcome.success
         (create_error_message "T" (PyErr.str (PyErr.keyError "Records"))))
    ∧ errCardText (create_error_message "T" (PyErr.str (PyErr.keyError "Records")))
        = some (.str (PyErr.str (PyErr.keyError "Records"))) :=
  ⟨(handler_no_propagation loadsA "T" SendOutcome.success (.obj [])).1
      (PyErr.keyError "Records") rfl,
   ((handler_no_propagation loadsA "T" SendOutcome.success (.obj [])).2.2.1
      (PyErr.keyError "Records")).1⟩

/-- C10: a parsed payload tagged `AWS Service Event via CloudTrail` but
lacking the `detail` key never yields an audit card — the `detail` lookup
raises `KeyError`, the entry point catches it, and the delivered message is
the error card built from that exception. -/
theorem missing_detail_error_card (loads : String → Except String Json) (now : String)
    (outcome : SendOutcome) (event : Json) (msgS : String)
    (kvs : List (String × Json)) (sns : Json)
    (hm : getMessage event = .ok (.str msgS))
    (hl : loads msgS = .ok (.obj kvs))
    (hs : getSns event = .ok sns)
    (hA : jlookup kvs "AlarmName" = none)
    (hdt : jlookup kvs "detail-type" = some (.str "AWS Service Event via CloudTrail"))
    (hd : jlookup kvs "detail" = none) :
    tryBlock loads now event = .error (PyErr.keyError "detail")
    ∧ lambda_handler loads now outcome event =
        (create_error_message now (PyErr.str (PyErr.keyError "detail")),
         send_teams_message outcome
           (create_error_message now (PyErr.str (PyErr.keyError "detail")))) := by
  have ht : tryBlock loads now event = .error (PyErr.keyError "detail") := by
    unfold tryBlock
    rw [hm]
    simp only [Bind.bind, Except.bind, hl, hs, pyIn, hA, hdt, hd, Option.isSome,
      jsub, jlookup]
    simp [hdt, hd, pure, Except.pure]
  refine ⟨ht, ?_⟩
  unfold lambda_handler
  rw [ht]

/-- Witness for C10: the concrete CloudTrail-tagged payload without
`detail`. -/
theorem missing_detail_error_card_witness :
    tryBlock loadsNoDetail "T" evAlarm = .error (PyErr.keyError "detail")
    ∧ lambda_handler loadsNoDetail "T" SendOutcome.success evAlarm =
        (create_error_message "T" (PyErr.str (PyErr.keyError "detail")),
         send_teams_message SendOutcome.success
           (create_error_message "T" (PyErr.str (PyErr.keyError "detail")))) :=
  missing_detail_error_card loadsNoDetail "T" SendOutcome.success evAlarm "MSG"
    [("detail-type", .str "AWS Service Event via CloudTrail"),
     ("eventName", .str "StopInstances")]
    (.obj [("Message", .str "MSG"), ("Subject", .str "sub")])
    rfl rfl rfl rfl rfl rfl

/-- C7: the audit renderer always emits the fixed good-styled header and an
attention-styled Error Details block, for every input detail mapping; the
error text is the `errorMessage` value verbatim when present and the
placeholder `No error message provided` when absent. -/
theorem trail_card (kvs : List (String × Json)) :
    ∃ m, create_cloudtrail_message (.obj kvs) = .ok m
    ∧ styleAt (blockAt m 0) = some "good"
    ∧ textAt (itemAt (blockAt m 0) 0)
        = some (.str (EMOJI_CLOUDTRAIL ++ " " ++ EMOJI_SUCCESS ++ " CloudTrail Event"))
    ∧ colorAt (itemAt (blockAt m 0) 0) = some "Good"
    ∧ styleAt (blockAt m 2) = some "attention"
    ∧ textAt (itemAt (blockAt m 2) 0) = some (.str (EMOJI_ERROR ++ " Error Details"))
    ∧ colorAt (itemAt (blockAt m 2) 0) = some "attention"
    ∧ trailErrText m = some (jfindD kvs "errorMessage" (.str "No error message provided"))
    ∧ (jlookup kvs "errorMessage" = none →
        trailErrText m = some (.str "No error message provided"))
    ∧ (∀ v, jlookup kvs "errorMessage" = some v → trailErrText m = some v) := by
  unfold create_cloudtrail_message
  simp only [jget, Bind.bind, Except.bind]
  refine ⟨_, rfl, rfl, rfl, rfl, rfl, rfl, rfl, rfl, ?_, ?_⟩
  · intro h
    simp [trailErrText, textAt, itemAt, blockAt, cardBody, teamsWrap, containerBlock,
      BodyBlock.itemsOf, BodyBlock.textOf, jfindD, h]
  · intro v hv
    simp [trailErrText, textAt, itemAt, blockAt, cardBody, teamsWrap, containerBlock,
      BodyBlock.itemsOf, BodyBlock.textOf, jfindD, hv]

/-- Witness for C7: the spec's audit scenario; the error block shows
`Access Denied` verbatim. -/
theorem trail_card_witness :
    (∃ m, create_cloudtrail_message (.obj [("eventName", .str "StopInstances"),
        ("errorMessage", .str "Access Denied")]) = .ok m
      ∧ styleAt (blockAt m 0) = some "good"
      ∧ styleAt (blockAt m 2) = some "attention"
      ∧ trailErrText m = some (.str "Access Denied")) := by
  obtain ⟨m, hok, h1, _, _, h5, _, _, _, _, h10⟩ :=
    trail_card [("eventName", .str "StopInstances"), ("errorMessage", .str "Access Denied")]
  exact ⟨m, hok, h1, h5, h10 (.str "Access Denied") rfl⟩

/-- C6: the alarm renderer's branch on `NewStateValue` compared
case-insensitively with `alarm`: the firing branch uses attention styling, an
`Attention` title color and a title `CloudWatch Alarm - <name>`, with the
alarm-name and new-state texts colored `attention`; every other state value
(including the substituted default `Unknown`) yields good styling, a
`CloudWatch Alarm Resolved` title, and `good`-colored texts. -/
theorem alarm_styling (now : String) (kvs : List (String × Json)) (ns : String)
    (hns : jfindD kvs "NewStateValue" (.str "Unknown") = .str ns) :
    ∃ m, create_cloudwatch_alarm_message now (.obj kvs) = .ok m
    ∧ (strLower ns = "alarm" →
        styleAt (blockAt m 0) = some "attention"
        ∧ colorAt (itemAt (blockAt m 0) 0) = some "Attention"
        ∧ (∃ t, textAt (itemAt (blockAt m 0) 0) = some (.str t)
            ∧ containsStr t "CloudWatch Alarm"
            ∧ t = EMOJI_ERROR ++ " " ++ EMOJI_WARNING ++ " CloudWatch Alarm - "
                ++ pyStr (jfindD kvs "AlarmName" (.str "Unknown Alarm")))
        ∧ colorAt (columnItemAt (itemAt (blockAt m 1) 0) 1 0) = some "attention"
        ∧ colorAt (columnItemAt (itemAt (blockAt m 1) 0) 1 2) = some "attention")
    ∧ (strLower ns ≠ "alarm" →
        styleAt (blockAt m 0) = some "good"
        ∧ colorAt (itemAt (blockAt m 0) 0) = some "Good"
        ∧ (∃ t, textAt (itemAt (blockAt m 0) 0) = some (.str t)
            ∧ containsStr t "CloudWatch Alarm Resolved"
            ∧ t = EMOJI_SUCCESS ++ " " ++ EMOJI_INFO ++ " CloudWatch Alarm Resolved - "
                ++ pyStr (jfindD kvs "AlarmName" (.str "Unknown Alarm")))
        ∧ colorAt (columnItemAt (itemAt (blockAt m 1) 0) 1 0) = some "good"
        ∧ colorAt (columnItemAt (itemAt (blockAt m 1) 0) 1 2) = some "good") := by
  unfold create_cloudwatch_alarm_message
  simp only [jget, Bind.bind, Except.bind, hns, pyLower]
  refine ⟨_, rfl, ?_, ?_⟩
  · intro h
    simp only [h, if_pos rfl]
    refine ⟨rfl, rfl, ⟨_, rfl, ⟨EMOJI_ERROR ++ " " ++ EMOJI_WARNING ++ " ",
      " - " ++ pyStr (jfindD kvs "AlarmName" (.str "Unknown Alarm")), ?_⟩, rfl⟩, rfl, rfl⟩
    simp [String.append_assoc,
      str_break " CloudWatch Alarm - " " CloudWatch Alarm" " - " (by decide)]
  · intro h
    simp only [if_neg h]
    refine ⟨rfl, rfl, ⟨_, rfl, ⟨EMOJI_SUCCESS ++ " " ++ EMOJI_INFO ++ " ",
      " - " ++ pyStr (jfindD kvs "AlarmName" (.str "Unknown Alarm")), ?_⟩, rfl⟩, rfl, rfl⟩
    simp [String.append_assoc,
      str_break " CloudWatch Alarm Resolved - " " CloudWatch Alarm Resolved" " - " (by decide)]

/-- Witness for C6: the spec's alarm scenario (`NewStateValue = "ALARM"`)
takes the attention branch with a title containing `cpu-high`. -/
theorem alarm_styling_witness :
    ∃ m, create_cloudwatch_alarm_message "T"
        (.obj [("AlarmName", .str "cpu-high"), ("NewStateValue", .str "ALARM"),
          ("OldStateValue", .str "OK"), ("NewStateReason", .str "threshold breached")])
      = .ok m
    ∧ styleAt (blockAt m 0) = some "attention"
    ∧ (∃ t, textAt (itemAt (blockAt m 0) 0) = some (.str t)
        ∧ containsStr t "CloudWatch Alarm")
    ∧ colorAt (columnItemAt (itemAt (blockAt m 1) 0) 1 0) = some "attention" := by
  obtain ⟨m, hok, hfire, _⟩ := alarm_styling "T"
    [("AlarmName", .str "cpu-high"), ("NewStateValue", .str "ALARM"),
     ("OldStateValue", .str "OK"), ("NewStateReason", .str "threshold breached")]
    "ALARM" rfl
  obtain ⟨h1, _, ⟨t, ht, hc, _⟩, h4, _⟩ := hfire (by decide)
  exact ⟨m, hok, h1, ⟨t, ht, hc⟩, h4⟩

/-! ## Fixed-point formatter shape lemmas -/

theorem padDigits_length (d n : Nat) : (padDigits d n).length = d := by
  induction d generalizing n with
  | zero => rfl
  | succ d ih => simp [padDigits, ih]

theorem digitChar_isDigit (m : Nat) (h : m < 10) : (Nat.digitChar m).isDigit = true := by
  interval_cases m <;> decide

theorem padDigits_isDigit (d n : Nat) : ∀ c ∈ padDigits d n, c.isDigit = true := by
  induction d generalizing n with
  | zero => intro c hc; cases hc
  | succ d ih =>
    intro c hc
    simp only [padDigits, List.mem_append, List.mem_singleton] at hc
    rcases hc with hc | hc
    · exact ih (n / 10) c hc
    · subst hc
      exact digitChar_isDigit _ (Nat.mod_lt _ (by omega))

/-- The formatter always renders exactly `d` fractional digits after the
final dot. -/
theorem formatFixed_decimals (q : Rat) (d : Nat) :
    ∃ a b, formatFixed q d = a ++ "." ++ b ∧ b.length = d
      ∧ ∀ c ∈ b.data, c.isDigit = true := by
  refine ⟨_, _, rfl, ?_, ?_⟩
  · simpa using padDigits_length d _
  · simpa using padDigits_isDigit d _

/-! ## Root-causes machinery -/

theorem exceptMap_total {α β : Type} (f : α → Except PyErr β) (l : List α)
    (h : ∀ x ∈ l, ∃ r, f x = .ok r) :
    ∃ rs, exceptMap f l = .ok rs ∧ rs.length = l.length := by
  induction l with
  | nil => exact ⟨[], rfl, rfl⟩
  | cons x xs ih =>
    obtain ⟨r, hr⟩ := h x (List.mem_cons_self x xs)
    obtain ⟨rs, hrs, hlen⟩ := ih (fun y hy => h y (List.mem_cons_of_mem x hy))
    refine ⟨r :: rs, ?_, by simp [hlen]⟩
    simp [exceptMap, hr, hrs, Bind.bind, Except.bind, pure, Except.pure]

theorem exceptMap_get {α β : Type} (f : α → Except PyErr β) (l : List α) (rs : List β)
    (h : exceptMap f l = .ok rs) :
    rs.length = l.length
    ∧ ∀ i x, l.get? i = some x → ∃ r, f x = .ok r ∧ rs.get? i = some r := by
  induction l generalizing rs with
  | nil =>
    simp only [exceptMap] at h
    cases h
    exact ⟨rfl, by intro i x hx; cases i <;> cases hx⟩
  | cons x xs ih =>
    simp only [exceptMap] at h
    rw [exBind_ok] at h
    obtain ⟨r, hr, h⟩ := h
    rw [exBind_ok] at h
    obtain ⟨rs0, hrs0, h⟩ := h
    rw [exPure_ok] at h
    subst h
    obtain ⟨hlen, hget⟩ := ih rs0 hrs0
    refine ⟨by simp [hlen], ?_⟩
    intro i y hy
    cases i with
    | zero =>
      cases hy
      exact ⟨r, hr, rfl⟩
    | succ i => exact hget i y hy

theorem cost_row_total (c : Json) (hc : wellShapedCause c = true) :
    ∃ r, cost_row c = .ok r := by
  cases c
  case null => simp [wellShapedCause] at hc
  case bool b => simp [wellShapedCause] at hc
  case num q0 => simp [wellShapedCause] at hc
  case str s0 => simp [wellShapedCause] at hc
  case arr xs => simp [wellShapedCause] at hc
  case obj ckvs =>
  simp only [wellShapedCause, Bool.and_eq_true] at hc
  obtain ⟨⟨hsvc, _⟩, himp⟩ := hc
  obtain ⟨s, hs⟩ := strOrAbsent_findD ckvs "service" "Unknown Service" hsvc
  obtain ⟨q, hq⟩ := numOrAbsent_findD ckvs "impactContribution" 0 himp
  unfold cost_row
  simp only [jget, Bind.bind, Except.bind, hs, hq, pyLen, pyFormatFixed]
  split
  · simp [jslice, pyAddStr, Bind.bind, Except.bind, pure, Except.pure]
  · simp [pure, Except.pure]

theorem cost_table_branch_spec (l : List Json) (bb : List BodyBlock)
    (hc : ∀ x ∈ l, wellShapedCause x = true) :
    (l = [] → cost_table_branch (.arr l) bb = .ok bb)
    ∧ (l ≠ [] → ∃ rs, exceptMap cost_row l = .ok rs ∧ rs.length = l.length
        ∧ cost_table_branch (.arr l) bb
          = .ok (bb ++ [containerBlock "default" (some "Large") [
              textBlock (.str ("🔍 **Top " ++ Nat.repr l.length
                  ++ " Contributing Services**"))
                (some "Bolder") (some "Medium") (some "default") (some true) none none,
              tableOf (Table.mk [TableColumn.mk (some "3"), TableColumn.mk (some "2"),
                TableColumn.mk (some "1")] (cost_header_row :: rs) true true
                (some "Small"))]])) := by
  constructor
  · intro hl
    subst hl
    simp [cost_table_branch, truthy, pure, Except.pure]
  · intro hl
    obtain ⟨rs, hrs, hlen⟩ := exceptMap_total cost_row l
      (fun x hx => cost_row_total x (hc x hx))
    refine ⟨rs, hrs, hlen, ?_⟩
    have ht : truthy (.arr l) = true := by
      cases l with
      | nil => exact absurd rfl hl
      | cons x xs => simp [truthy]
    rw [← hlen]
    simp [cost_table_branch, ht, jelements, hrs, pyLen, Bind.bind, Except.bind,
      pure, Except.pure, hlen]

theorem cost_table_branch_ok (l : List Json) (bb : List BodyBlock)
    (hc : ∀ x ∈ l, wellShapedCause x = true) :
    ∃ tail, cost_table_branch (.arr l) bb = .ok (bb ++ tail) := by
  obtain ⟨h0, h1⟩ := cost_table_branch_spec l bb hc
  cases l with
  | nil => exact ⟨[], by simpa using h0 rfl⟩
  | cons x xs =>
    obtain ⟨rs, _, _, hb⟩ := h1 (by simp)
    exact ⟨_, hb⟩

/-- C4: the cost card's numeric renderings — the overspend line carries
`totalImpact` as `$` plus two decimals and `totalImpactPercentage` to one
decimal, the Expected/Actual spend values are `$` plus two decimals, and the
Anomaly Score fact is `current (max: max)` with two decimals each; every
`formatFixed _ d` rendering has exactly `d` digits after the final dot. -/
theorem cost_formats (av mv : Json) (sd ed : String) (ta te ti pct cs ms : Rat)
    (rcs : List Json) (dl : Json)
    (hcauses : ∀ c ∈ rcs, wellShapedCause c = true) :
    ∃ m, create_cost_anomaly_message
        (mkCostPayload av mv sd ed ta te ti pct cs ms rcs dl) = .ok m
    ∧ textAt (itemAt (itemAt (blockAt m 2) 2) 0)
        = some (.str ("**Overspend: $" ++ formatFixed ti 2 ++ " (" ++ formatFixed pct 1
            ++ "% increase)**"))
    ∧ textAt (columnItemAt (itemAt (blockAt m 2) 1) 0 1)
        = some (.str ("$" ++ formatFixed te 2))
    ∧ textAt (columnItemAt (itemAt (blockAt m 2) 1) 1 1)
        = some (.str ("$" ++ formatFixed ta 2))
    ∧ factValueAt m 1 3
        = some (.str (formatFixed cs 2 ++ " (max: " ++ formatFixed ms 2 ++ ")"))
    ∧ (∀ q : Rat, ∀ d : Nat, ∃ a b, formatFixed q d = a ++ "." ++ b ∧ b.length = d
        ∧ ∀ c ∈ b.data, c.isDigit = true) := by
  obtain ⟨tail, htail⟩ := cost_table_branch_ok (rcs.take 5)
    (cost_body_blocks av mv
      (.str (String.mk (sd.data.take 10))) (.str (String.mk (ed.data.take 10)))
      (formatFixed cs 2) (formatFixed ms 2) (formatFixed te 2) (formatFixed ta 2)
      (formatFixed ti 2) (formatFixed pct 1))
    (fun x hx => hcauses x (List.mem_of_mem_take hx))
  have h1 : create_cost_anomaly_message
      (mkCostPayload av mv sd ed ta te ti pct cs ms rcs dl)
      = (cost_table_branch (.arr (rcs.take 5))
          (cost_body_blocks av mv
            (.str (String.mk (sd.data.take 10))) (.str (String.mk (ed.data.take 10)))
            (formatFixed cs 2) (formatFixed ms 2) (formatFixed te 2) (formatFixed ta 2)
            (formatFixed ti 2) (formatFixed pct 1))
        >>= fun bbs => pure (teamsWrap (Content.mk defaultSchema "AdaptiveCard" "1.2" bbs
          (if truthy dl then
            [Action.mk "Action.OpenUrl" "🔗 View in AWS Console" (some dl) (some "positive")]
          else [])))) := rfl
  rw [h1, htail]
  exact ⟨_, rfl, rfl, rfl, rfl, rfl, fun q d => formatFixed_decimals q d⟩

/-- Witness for C4 at concrete field values. -/
theorem cost_formats_witness :
    ∃ m, create_cost_anomaly_message
        (mkCostPayload (.str "prod") (.str "mon") "2024-01-01T00" "2024-01-03T00"
          750 600 150 25 87 95 [causeS] (.str "")) = .ok m
    ∧ textAt (itemAt (itemAt (blockAt m 2) 2) 0)
        = some (.str ("**Overspend: $" ++ formatFixed 150 2 ++ " (" ++ formatFixed 25 1
            ++ "% increase)**"))
    ∧ factValueAt m 1 3
        = some (.str (formatFixed 87 2 ++ " (max: " ++ formatFixed 95 2 ++ ")")) := by
  obtain ⟨m, hok, h1, _, _, h4, _⟩ := cost_formats (.str "prod") (.str "mon")
    "2024-01-01T00" "2024-01-03T00" 750 600 150 25 87 95 [causeS] (.str "")
    (by intro c hc; simp at hc; subst hc; rfl)
  exact ⟨m, hok, h1, h4⟩

/-- C9: renderers are total over their field sources — any mapping (with
string state values where the code lower-cases, and expected field classes
for the cost payload) renders successfully, and a missing field is
substituted with its literal placeholder (`Unknown Event`,
`Unknown Subject`, `No reason provided`, `Unknown Account`) instead of
failing.  Serialization (`to_dict`) is total by construction. -/
theorem renderers_total :
    (∀ kvs : List (String × Json), ∃ m, create_cloudtrail_message (.obj kvs) = .ok m
      ∧ (jlookup kvs "eventName" = none →
          textAt (columnItemAt (itemAt (blockAt m 1) 0) 1 0) = some (.str "Unknown Event")))
    ∧ (∀ (now : String) (kvs : List (String × Json)), ∃ m,
        create_generic_message now (.obj kvs) = .ok m
      ∧ (jlookup kvs "Subject" = none →
          textAt (columnItemAt (itemAt (blockAt m 1) 0) 1 0) = some (.str "Unknown Subject")))
    ∧ (∀ (now : String) (kvs : List (String × Json)) (ns : String),
        jfindD kvs "NewStateValue" (.str "Unknown") = .str ns →
        ∃ m, create_cloudwatch_alarm_message now (.obj kvs) = .ok m
      ∧ (jlookup kvs "NewStateReason" = none →
          textAt (itemAt (blockAt m 2) 1) = some (.str "No reason provided")))
    ∧ (∀ (av mv : Json) (sd ed : String) (ta te ti pct cs ms : Rat)
        (rcs : List Json) (dl : Json), (∀ c ∈ rcs, wellShapedCause c = true) →
        ∃ m, create_cost_anomaly_message
          (mkCostPayload av mv sd ed ta te ti pct cs ms rcs dl) = .ok m)
    ∧ (∃ m, create_cost_anomaly_message (.obj []) = .ok m
        ∧ factValueAt m 1 0 = some (.str "Unknown Account")) := by
  refine ⟨?_, ?_, ?_, ?_, ?_⟩
  · intro kvs
    unfold create_cloudtrail_message
    simp only [jget, Bind.bind, Except.bind]
    refine ⟨_, rfl, fun h => ?_⟩
    show some (jfindD kvs "eventName" (.str "Unknown Event")) = some (.str "Unknown Event")
    simp [jfindD, h]
  · intro now kvs
    unfold create_generic_message
    simp only [jget, Bind.bind, Except.bind]
    refine ⟨_, rfl, fun h => ?_⟩
    show some (jfindD kvs "Subject" (.str "Unknown Subject")) = some (.str "Unknown Subject")
    simp [jfindD, h]
  · intro now kvs ns hns
    unfold create_cloudwatch_alarm_message
    simp only [jget, Bind.bind, Except.bind, hns, pyLower]
    refine ⟨_, rfl, fun h => ?_⟩
    show some (jfindD kvs "NewStateReason" (.str "No reason provided"))
      = some (.str "No reason provided")
    simp [jfindD, h]
  · intro av mv sd ed ta te ti pct cs ms rcs dl hcauses
    obtain ⟨tail, htail⟩ := cost_table_branch_ok (rcs.take 5)
      (cost_body_blocks av mv
        (.str (String.mk (sd.data.take 10))) (.str (String.mk (ed.data.take 10)))
        (formatFixed cs 2) (formatFixed ms 2) (formatFixed te 2) (formatFixed ta 2)
        (formatFixed ti 2) (formatFixed pct 1))
      (fun x hx => hcauses x (List.mem_of_mem_take hx))
    have h1 : create_cost_anomaly_message
        (mkCostPayload av mv sd ed ta te ti pct cs ms rcs dl)
        = (cost_table_branch (.arr (rcs.take 5))
            (cost_body_blocks av mv
              (.str (String.mk (sd.data.take 10))) (.str (String.mk (ed.data.take 10)))
              (formatFixed cs 2) (formatFixed ms 2) (formatFixed te 2) (formatFixed ta 2)
              (formatFixed ti 2) (formatFixed pct 1))
          >>= fun bbs => pure (teamsWrap (Content.mk defaultSchema "AdaptiveCard" "1.2" bbs
            (if truthy dl then
              [Action.mk "Action.OpenUrl" "🔗 View in AWS Console" (some dl) (some "positive")]
            else [])))) := rfl
    rw [h1, htail]
    exact ⟨_, rfl⟩
  · exact ⟨_, rfl, rfl⟩

/-- Witness for C9: the empty mapping renders through the audit, generic and
alarm renderers with their placeholders. -/
theorem renderers_total_witness :
    (∃ m, create_cloudtrail_message (.obj []) = .ok m
      ∧ textAt (columnItemAt (itemAt (blockAt m 1) 0) 1 0) = some (.str "Unknown Event"))
    ∧ (∃ m, create_generic_message "T" (.obj []) = .ok m
      ∧ textAt (columnItemAt (itemAt (blockAt m 1) 0) 1 0) = some (.str "Unknown Subject"))
    ∧ (∃ m, create_cloudwatch_alarm_message "T" (.obj []) = .ok m
      ∧ textAt (itemAt (blockAt m 2) 1) = some (.str "No reason provided")) := by
  obtain ⟨h1, h2, h3, _, _⟩ := renderers_total
  obtain ⟨m1, hok1, hp1⟩ := h1 []
  obtain ⟨m2, hok2, hp2⟩ := h2 "T" []
  obtain ⟨m3, hok3, hp3⟩ := h3 "T" [] "Unknown" rfl
  exact ⟨⟨m1, hok1, hp1 rfl⟩, ⟨m2, hok2, hp2 rfl⟩, ⟨m3, hok3, hp3 rfl⟩⟩

/-- C3 counterexample: with five root causes the constructed `Table.rows`
list (and hence the serialized `rows` array) holds six `TableRow` entries —
the header row plus five data rows — so the table does contain more than
five rows. -/
theorem cost_table_six_rows :
    (create_cost_anomaly_message costPayload5).map
      (fun m => (costTable m).map (fun t => t.rowsOf.length)) = .ok (some 6) := rfl

theorem cost_row_service (ckvs : List (String × Json)) (s : String) (q : Rat)
    (hsvc : jfindD ckvs "service" (.str "Unknown Service") = .str s)
    (hq : jfindD ckvs "impactContribution" (.num 0) = .num q) :
    ∃ r, cost_row (.obj ckvs) = .ok r
    ∧ rowFirstCellText r = some (.str (specServiceText s)) := by
  unfold cost_row
  simp only [jget, Bind.bind, Except.bind, hsvc, hq, pyLen, pyFormatFixed]
  by_cases h35 : 35 < s.data.length
  · simp only [if_pos h35, jslice, Bind.bind, Except.bind, pure, Except.pure, pyAddStr]
    refine ⟨_, rfl, ?_⟩
    simp [rowFirstCellText, TableRow.cellsOf, TableCell.itemsOf, textBlock,
      BodyBlock.textOf, specServiceText, show 35 < s.length from h35]
  · simp only [if_neg h35, pure, Except.pure]
    refine ⟨_, rfl, ?_⟩
    simp [rowFirstCellText, TableRow.cellsOf, TableCell.itemsOf, textBlock,
      BodyBlock.textOf, specServiceText, show ¬35 < s.length from h35]

/-- C3 (amended): the root-causes table is appended exactly when
`rootCauses` is non-empty; its `rows` list is one header row followed by at
most five data rows drawn from the first five `rootCauses` entries in order,
and each data row renders its service name via the 32-character-plus-ellipsis
truncation rule for names longer than 35 characters, shorter names
verbatim. -/
theorem cost_table_rows (av mv : Json) (sd ed : String) (ta te ti pct cs ms : Rat)
    (rcs : List Json) (dl : Json)
    (hcauses : ∀ c ∈ rcs, wellShapedCause c = true) :
    ∃ m, create_cost_anomaly_message
        (mkCostPayload av mv sd ed ta te ti pct cs ms rcs dl) = .ok m
    ∧ (rcs = [] → costTable m = none ∧ (cardBody m).length = 3)
    ∧ (rcs ≠ [] → ∃ t rows, costTable m = some t
        ∧ t.rowsOf = cost_header_row :: rows
        ∧ t.firstRowHeaderOf = true
        ∧ rows.length = min 5 rcs.length
        ∧ rows.length ≤ 5
        ∧ (∀ i c ckvs s, i < 5 → rcs.get? i = some c → c = .obj ckvs →
            jfindD ckvs "service" (.str "Unknown Service") = .str s →
            ∃ r, rows.get? i = some r
              ∧ rowFirstCellText r = some (.str (specServiceText s)))) := by
  have h1 : create_cost_anomaly_message
      (mkCostPayload av mv sd ed ta te ti pct cs ms rcs dl)
      = (cost_table_branch (.arr (rcs.take 5))
          (cost_body_blocks av mv
            (.str (String.mk (sd.data.take 10))) (.str (String.mk (ed.data.take 10)))
            (formatFixed cs 2) (formatFixed ms 2) (formatFixed te 2) (formatFixed ta 2)
            (formatFixed ti 2) (formatFixed pct 1))
        >>= fun bbs => pure (teamsWrap (Content.mk defaultSchema "AdaptiveCard" "1.2" bbs
          (if truthy dl then
            [Action.mk "Action.OpenUrl" "🔗 View in AWS Console" (some dl) (some "positive")]
          else [])))) := rfl
  obtain ⟨hnil, hcons⟩ := cost_table_branch_spec (rcs.take 5)
    (cost_body_blocks av mv
      (.str (String.mk (sd.data.take 10))) (.str (String.mk (ed.data.take 10)))
      (formatFixed cs 2) (formatFixed ms 2) (formatFixed te 2) (formatFixed ta 2)
      (formatFixed ti 2) (formatFixed pct 1))
    (fun x hx => hcauses x (List.mem_of_mem_take hx))
  by_cases hrc : rcs = []
  · subst hrc
    rw [h1, hnil rfl]
    refine ⟨_, rfl, fun _ => ⟨rfl, rfl⟩, fun hne => absurd rfl hne⟩
  · have hne5 : rcs.take 5 ≠ [] := by
      cases rcs with
      | nil => exact absurd rfl hrc
      | cons c0 cl => simp
    obtain ⟨rs, hrs, hlen, hb⟩ := hcons hne5
    rw [h1, hb]
    refine ⟨_, rfl, fun he => absurd he hrc, fun _ => ?_⟩
    refine ⟨_, rs, rfl, rfl, rfl, ?_, ?_, ?_⟩
    · rw [hlen, List.length_take]
    · rw [hlen, List.length_take]
      exact Nat.min_le_left 5 rcs.length
    · intro i c ckvs s hi hgi hobj hsvc
      obtain ⟨_, hfun⟩ := exceptMap_get cost_row (rcs.take 5) rs hrs
      have hti : (rcs.take 5).get? i = some c := by
        rw [List.get?_take hi, hgi]
      obtain ⟨r, hr, hri⟩ := hfun i c hti
      subst hobj
      have hshape := hcauses _ (List.get?_mem hgi)
      simp only [wellShapedCause, Bool.and_eq_true] at hshape
      obtain ⟨⟨_, _⟩, himp⟩ := hshape
      obtain ⟨q, hqq⟩ := numOrAbsent_findD ckvs "impactContribution" 0 himp
      obtain ⟨r2, hr2, hcell⟩ := cost_row_service ckvs s q hsvc hqq
      rw [hr2] at hr
      cases hr
      exact ⟨r, hri, hcell⟩

/-- Witness for C3 at a concrete payload: one root cause with a 40-character
service name, rendered truncated to 32 characters plus an ellipsis. -/
theorem cost_table_rows_witness :
    ∃ m, create_cost_anomaly_message
        (mkCostPayload (.str "prod") (.str "mon") "2024-01-01T00" "2024-01-03T00"
          750 600 150 25 87 95
          [.obj [("service", .str "Amazon Elastic Compute Cloud - Computing"),
            ("impactContribution", .num 60)]] (.str "")) = .ok m
    ∧ ∃ t rows, costTable m = some t
      ∧ t.rowsOf = cost_header_row :: rows
      ∧ rows.length = 1
      ∧ ∃ r, rows.get? 0 = some r
        ∧ rowFirstCellText r = some (.str "Amazon Elastic Compute Cloud - C...") := by
  obtain ⟨m, hok, _, hcons⟩ := cost_table_rows (.str "prod") (.str "mon")
    "2024-01-01T00" "2024-01-03T00" 750 600 150 25 87 95
    [.obj [("service", .str "Amazon Elastic Compute Cloud - Computing"),
      ("impactContribution", .num 60)]] (.str "")
    (by intro c hc; simp at hc; subst hc; rfl)
  obtain ⟨t, rows, ht, hrows, _, hlen, _, hsvc⟩ := hcons (by simp)
  obtain ⟨r, hri, hcell⟩ := hsvc 0
    (.obj [("service", .str "Amazon Elastic Compute Cloud - Computing"),
      ("impactContribution", .num 60)])
    [("service", .str "Amazon Elastic Compute Cloud - Computing"),
      ("impactContribution", .num 60)]
    "Amazon Elastic Compute Cloud - Computing" (by omega) rfl rfl rfl
  refine ⟨m, hok, t, rows, ht, hrows, by simpa using hlen, r, hri, ?_⟩
  rw [hcell]
  rfl

/-- C5 counterexample: a payload whose `accountName` is JSON `null` renders
to a card whose serialized form carries a fact `value` key holding `null` —
a null-valued key other than `contentUrl`. -/
theorem cost_null_value_leak :
    (create_cost_anomaly_message costPayloadNull).map
      (fun m => (noNullVals m.to_dict, msgPath m [jk "body", ji 1, jk "facts", ji 0, jk "value"]))
      = .ok (false, some Json.null) := rfl

theorem cost_row_noNull (c : Json) (hc : wellShapedCause c = true) (r : TableRow)
    (hr : cost_row c = .ok r) : noNullVals (rowToDict r) = true := by
  cases c
  case null => simp [wellShapedCause] at hc
  case bool b => simp [wellShapedCause] at hc
  case num q0 => simp [wellShapedCause] at hc
  case str s0 => simp [wellShapedCause] at hc
  case arr xs => simp [wellShapedCause] at hc
  case obj ckvs =>
  simp only [wellShapedCause, Bool.and_eq_true] at hc
  obtain ⟨⟨hsvc, hlnk⟩, himp⟩ := hc
  obtain ⟨s, hs⟩ := strOrAbsent_findD ckvs "service" "Unknown Service" hsvc
  obtain ⟨ls, hls⟩ := strOrAbsent_findD ckvs "linkedAccountName" "Unknown" hlnk
  obtain ⟨q, hq⟩ := numOrAbsent_findD ckvs "impactContribution" 0 himp
  unfold cost_row at hr
  simp only [jget, Bind.bind, Except.bind, hs, hls, hq, pyLen, pyFormatFixed] at hr
  by_cases h35 : 35 < s.data.length
  · rw [if_pos h35] at hr
    simp only [jslice, Bind.bind, Except.bind, pure, Except.pure, pyAddStr] at hr
    cases hr
    rfl
  · rw [if_neg h35] at hr
    simp only [pure, Except.pure] at hr
    cases hr
    rfl

theorem rows_noNull (l : List Json) (hc : ∀ c ∈ l, wellShapedCause c = true) :
    ∀ rs, exceptMap cost_row l = .ok rs → noNullList (rowsToDict rs) = true := by
  induction l with
  | nil =>
    intro rs h
    simp only [exceptMap] at h
    cases h
    rfl
  | cons x xs ih =>
    intro rs h
    simp only [exceptMap] at h
    rw [exBind_ok] at h
    obtain ⟨r, hr, h⟩ := h
    rw [exBind_ok] at h
    obtain ⟨rs0, hrs0, h⟩ := h
    rw [exPure_ok] at h
    subst h
    have h1 := cost_row_noNull x (hc x (List.mem_cons_self _ _)) r hr
    have h2 := ih (fun y hy => hc y (List.mem_cons_of_mem _ hy)) rs0 hrs0
    simp [rowsToDict, noNullList, h1, h2]

theorem blocksToDict_append (l1 l2 : List BodyBlock) :
    blocksToDict (l1 ++ l2) = blocksToDict l1 ++ blocksToDict l2 := by
  induction l1 with
  | nil => rfl
  | cons b bs ih => simp [blocksToDict, ih]

theorem noNullList_append (xs ys : List Json) :
    noNullList (xs ++ ys) = (noNullList xs && noNullList ys) := by
  induction xs with
  | nil => rfl
  | cons x xs ih => simp [noNullList, ih, Bool.and_assoc]

theorem noNull_content_wrap (body : List BodyBlock) (acts : List Action)
    (hb : noNullList (blocksToDict body) = true)
    (ha : noNullList (acts.map Action.to_dict) = true) :
    noNullVals (teamsWrap (Content.mk defaultSchema "AdaptiveCard" "1.2" body acts)).to_dict
      = true := by
  cases acts with
  | nil =>
    simp [TeamsMessage.to_dict, teamsWrap, Attachment.to_dict, Content.to_dict,
      noNullVals, noNullKVs, noNullList, Json.isNull, hb]
  | cons a as =>
    simp only [List.map] at ha
    simp [TeamsMessage.to_dict, teamsWrap, Attachment.to_dict, Content.to_dict,
      noNullVals, noNullKVs, noNullList, Json.isNull, hb, List.isEmpty]
    simpa [noNullList] using ha

set_option maxHeartbeats 1000000 in
/-- C5 (amended): for payloads whose raw-copied fields are strings (and
numeric figures numbers), every renderer's serialized card has no null-valued
key other than the schema-mandated `contentUrl`, which is always present with
value `null`; `Table` serialization always emits the `firstRowAsHeader` and
`showGridLines` flags, even when false.  (Null payload values copied
verbatim — see the counterexample — are the one escape.) -/
theorem serialization_no_nulls :
    (∀ kvs, wellShapedTrail (.obj kvs) = true →
      ∃ m, create_cloudtrail_message (.obj kvs) = .ok m ∧ noNullVals m.to_dict = true)
    ∧ (∀ (now : String) kvs, wellShapedGeneric (.obj kvs) = true →
      ∃ m, create_generic_message now (.obj kvs) = .ok m ∧ noNullVals m.to_dict = true)
    ∧ (∀ (now : String) kvs, wellShapedAlarm (.obj kvs) = true →
      ∃ m, create_cloudwatch_alarm_message now (.obj kvs) = .ok m
        ∧ noNullVals m.to_dict = true)
    ∧ (∀ (av mv sd ed : String) (ta te ti pct cs ms : Rat) (rcs : List Json) (dl : String),
        (∀ c ∈ rcs, wellShapedCause c = true) →
        ∃ m, create_cost_anomaly_message
            (mkCostPayload (.str av) (.str mv) sd ed ta te ti pct cs ms rcs (.str dl)) = .ok m
          ∧ noNullVals m.to_dict = true)
    ∧ (∀ now s, noNullVals (create_error_message now s).to_dict = true)
    ∧ (∀ t : Table, jpath (tableToDict t) [jk "firstRowAsHeader"]
          = some (.bool t.firstRowHeaderOf)
        ∧ jpath (tableToDict t) [jk "showGridLines"] = some (.bool t.showGridLinesOf))
    ∧ (∀ body actions,
        jpath (teamsWrap (Content.mk defaultSchema "AdaptiveCard" "1.2" body
          actions)).to_dict [jk "attachments", ji 0, jk "contentUrl"] = some Json.null) := by
  refine ⟨?_, ?_, ?_, ?_, ?_, ?_, ?_⟩
  · intro kvs hw
    simp only [wellShapedTrail, Bool.and_eq_true] at hw
    obtain ⟨⟨⟨⟨h1, h2⟩, h3⟩, h4⟩, h5⟩ := hw
    obtain ⟨s1, e1⟩ := strOrAbsent_findD kvs "eventName" "Unknown Event" h1
    obtain ⟨s2, e2⟩ := strOrAbsent_findD kvs "eventType" "Unknown Type" h2
    obtain ⟨s3, e3⟩ := strOrAbsent_findD kvs "eventID" "Unknown ID" h3
    obtain ⟨s4, e4⟩ := strOrAbsent_findD kvs "eventTime" "Unknown Time" h4
    obtain ⟨s5, e5⟩ := strOrAbsent_findD kvs "errorMessage" "No error message provided" h5
    unfold create_cloudtrail_message
    simp only [jget, Bind.bind, Except.bind, e1, e2, e3, e4, e5]
    refine ⟨_, rfl, ?_⟩
    simp [TeamsMessage.to_dict, teamsWrap, Attachment.to_dict, Content.to_dict,
      BodyBlock.to_dict, blocksToDict, columnToDict, columnsToDict, containerBlock,
      columnSetBlock, columnOf, textBlock, emitType, emitJ, emitS, emitST, emitB,
      noNullVals, noNullKVs, noNullList, Json.isNull, Fact.to_dict, FactSet.to_dict,
      FactSetBlock.to_dict, factSetOf]
  · intro now kvs hw
    simp only [wellShapedGeneric, Bool.and_eq_true] at hw
    obtain ⟨⟨⟨⟨h1, h2⟩, h3⟩, h4⟩, h5⟩ := hw
    obtain ⟨s1, e1⟩ := strOrAbsent_findD kvs "Subject" "Unknown Subject" h1
    obtain ⟨s2, e2⟩ := strOrAbsent_findD kvs "Message" "No message body" h2
    obtain ⟨s3, e3⟩ := strOrAbsent_findD kvs "Timestamp" now h3
    obtain ⟨s4, e4⟩ := strOrAbsent_findD kvs "TopicArn" "Unknown Topic" h4
    obtain ⟨s5, e5⟩ := strOrAbsent_findD kvs "MessageId" "Unknown Message ID" h5
    unfold create_generic_message
    simp only [jget, Bind.bind, Except.bind, e1, e2, e3, e4, e5]
    refine ⟨_, rfl, ?_⟩
    simp [TeamsMessage.to_dict, teamsWrap, Attachment.to_dict, Content.to_dict,
      BodyBlock.to_dict, blocksToDict, columnToDict, columnsToDict, containerBlock,
      columnSetBlock, columnOf, textBlock, emitType, emitJ, emitS, emitST, emitB,
      noNullVals, noNullKVs, noNullList, Json.isNull, Fact.to_dict, FactSet.to_dict,
      FactSetBlock.to_dict, factSetOf]
  · intro now kvs hw
    simp only [wellShapedAlarm, Bool.and_eq_true] at hw
    obtain ⟨⟨⟨⟨h1, h2⟩, h3⟩, h4⟩, h5⟩ := hw
    obtain ⟨s1, e1⟩ := strOrAbsent_findD kvs "AlarmName" "Unknown Alarm" h1
    obtain ⟨s2, e2⟩ := strOrAbsent_findD kvs "OldStateValue" "Unknown" h2
    obtain ⟨s3, e3⟩ := strOrAbsent_findD kvs "NewStateValue" "Unknown" h3
    obtain ⟨s4, e4⟩ := strOrAbsent_findD kvs "NewStateReason" "No reason provided" h4
    obtain ⟨s5, e5⟩ := strOrAbsent_findD kvs "StateChangeTime" now h5
    unfold create_cloudwatch_alarm_message
    simp only [jget, Bind.bind, Except.bind, e1, e2, e3, e4, e5, pyLower]
    refine ⟨_, rfl, ?_⟩
    simp [TeamsMessage.to_dict, teamsWrap, Attachment.to_dict, Content.to_dict,
      BodyBlock.to_dict, blocksToDict, columnToDict, columnsToDict, containerBlock,
      columnSetBlock, columnOf, textBlock, emitType, emitJ, emitS, emitST, emitB,
      noNullVals, noNullKVs, noNullList, Json.isNull, Fact.to_dict, FactSet.to_dict,
      FactSetBlock.to_dict, factSetOf]
  · intro av mv sd ed ta te ti pct cs ms rcs dl hcauses
    have h1 : create_cost_anomaly_message
        (mkCostPayload (.str av) (.str mv) sd ed ta te ti pct cs ms rcs (.str dl))
        = (cost_table_branch (.arr (rcs.take 5))
            (cost_body_blocks (.str av) (.str mv)
              (.str (String.mk (sd.data.take 10))) (.str (String.mk (ed.data.take 10)))
              (formatFixed cs 2) (formatFixed ms 2) (formatFixed te 2) (formatFixed ta 2)
              (formatFixed ti 2) (formatFixed pct 1))
          >>= fun bbs => pure (teamsWrap (Content.mk defaultSchema "AdaptiveCard" "1.2" bbs
            (if truthy (.str dl) then
              [Action.mk "Action.OpenUrl" "🔗 View in AWS Console" (some (.str dl))
                (some "positive")]
            else [])))) := rfl
    have hacts : noNullList ((if truthy (Json.str dl) then
        [Action.mk "Action.OpenUrl" "🔗 View in AWS Console" (some (.str dl))
          (some "positive")]
      else []).map Action.to_dict) = true := by
      by_cases hdl : dl = "" <;>
        simp [truthy, hdl, Action.to_dict, emitST, noNullList, noNullVals, noNullKVs,
          Json.isNull]
    obtain ⟨hnil, hcons⟩ := cost_table_branch_spec (rcs.take 5)
      (cost_body_blocks (.str av) (.str mv)
        (.str (String.mk (sd.data.take 10))) (.str (String.mk (ed.data.take 10)))
        (formatFixed cs 2) (formatFixed ms 2) (formatFixed te 2) (formatFixed ta 2)
        (formatFixed ti 2) (formatFixed pct 1))
      (fun x hx => hcauses x (List.mem_of_mem_take hx))
    by_cases hrc : rcs.take 5 = []
    · rw [h1, hnil hrc]
      refine ⟨_, rfl, noNull_content_wrap _ _ rfl hacts⟩
    · obtain ⟨rs, hrs, hlen, hb⟩ := hcons hrc
      rw [h1, hb]
      refine ⟨_, rfl, noNull_content_wrap _ _ ?_ hacts⟩
      rw [blocksToDict_append, noNullList_append]
      have hrows := rows_noNull (rcs.take 5)
        (fun x hx => hcauses x (List.mem_of_mem_take hx)) rs hrs
      simp only [Bool.and_eq_true]
      refine ⟨rfl, ?_⟩
      simp [blocksToDict, BodyBlock.to_dict, containerBlock, textBlock, tableOf,
        tableToDict, rowsToDict, noNullList, noNullVals, noNullKVs, Json.isNull,
        emitType, emitJ, emitS, emitST, emitB, cost_header_row, TableColumn.to_dict,
        rowToDict, cellToDict, cellsToDict, hrows]
  · intro now s
    rfl
  · intro t
    cases t with
    | mk c r f g sp => exact ⟨rfl, rfl⟩
  · intro body actions
    rfl

/-- Witness for C5: the empty detail mapping and a concrete cost payload
both serialize null-free; the table flags are emitted for a concrete table. -/
theorem serialization_no_nulls_witness :
    (∃ m, create_cloudtrail_message (.obj []) = .ok m ∧ noNullVals m.to_dict = true)
    ∧ (∃ m, create_cost_anomaly_message
        (mkCostPayload (.str "prod") (.str "mon") "2024-01-01" "2024-01-02"
          750 600 150 25 87 95 [causeS] (.str "link")) = .ok m
        ∧ noNullVals m.to_dict = true)
    ∧ jpath (tableToDict (Table.mk [] [] true false none)) [jk "showGridLines"]
        = some (.bool false) := by
  obtain ⟨h1, _, _, h4, _, h6, _⟩ := serialization_no_nulls
  exact ⟨h1 [] rfl,
    h4 "prod" "mon" "2024-01-01" "2024-01-02" 750 600 150 25 87 95 [causeS] "link"
      (by intro c hc; simp at hc; subst hc; rfl),
    (h6 (Table.mk [] [] true false none)).2⟩

end NotifyTeams
